import Mathlib

/-!
# DebugPortDxe: the DebugPort protocol on top of SerialIo

A shallow embedding of `MdeModulePkg/Universal/DebugPortDxe/DebugPort.c`.

* The serial transport (`EFI_SERIAL_IO_PROTOCOL`) is an external collaborator.  It is
  modelled as an arbitrary deterministic state machine over a state type `σ`: each member
  function maps the transport state and its arguments to the next state, the returned
  `EFI_STATUS` and the values written through its out-parameters.
* Every function of the driver returns, next to its C results, the list of transport calls
  it made, in order (`Call`).
* The boot services used by `DebugPortStart` are an external collaborator too, modelled the
  same way over a state type `ε` (`EFI_BOOT_SERVICES`).
* The loops of `DebugPortRead`, `DebugPortWrite` and `DebugPortReset` are driven by the
  transport and need not terminate; they take a bound on the number of iterations and
  return `none` when it is exhausted.
* `UINTN` and `UINT32` quantities are natural numbers.  The driver does not check the byte
  counts the transport reports, so a transport may report any count.  The subtractions
  that can wrap do so explicitly (`sub32`, `subN`).  The cursors `BufferPtr - Buffer` and
  `Position` are sums of the counts the transport reported; they are kept as exact sums,
  which is what the arithmetic of the driver computes as long as a sum stays below `2 ^ 64`
  (on a transport that reports at most the bytes it was asked for, the sums never exceed
  the size of the buffer).
-/

namespace DebugPort

/-! ## Status codes (UEFI base types; `DebugPort.h` and the UEFI headers are not part of
the sources, the values below are the ones of the UEFI specification for a 64-bit build) -/

/-- An `EFI_STATUS` is a `UINTN`. -/
abbrev EFI_STATUS := Nat

/-- The high bit of a `UINTN`. -/
def MAX_BIT : Nat := 9223372036854775808

/-- The macro `ENCODE_ERROR (c)`, which is `MAX_BIT | c`, for the small codes used here. -/
def ENCODE_ERROR (c : Nat) : EFI_STATUS := MAX_BIT + c

def EFI_SUCCESS : EFI_STATUS := 0
def EFI_UNSUPPORTED : EFI_STATUS := ENCODE_ERROR 3
def EFI_NOT_READY : EFI_STATUS := ENCODE_ERROR 6
def EFI_DEVICE_ERROR : EFI_STATUS := ENCODE_ERROR 7
def EFI_OUT_OF_RESOURCES : EFI_STATUS := ENCODE_ERROR 9
def EFI_TIMEOUT : EFI_STATUS := ENCODE_ERROR 18

/-- The macro `EFI_ERROR (s)`: `((INTN) s) < 0`, that is, the high bit of `s` is set. -/
def EFI_ERROR (s : EFI_STATUS) : Bool := decide (MAX_BIT ≤ s)

/-- The control bit `EFI_SERIAL_INPUT_BUFFER_EMPTY`. -/
def EFI_SERIAL_INPUT_BUFFER_EMPTY : Nat := 0x0100

/-! ## The serial transport -/

inductive EFI_PARITY_TYPE where
  | DefaultParity | NoParity | EvenParity | OddParity | MarkParity | SpaceParity
  deriving DecidableEq, Repr

inductive EFI_STOP_BITS_TYPE where
  | DefaultStopBits | OneStopBit | OneFiveStopBits | TwoStopBits
  deriving DecidableEq, Repr

/-- The six arguments of `SerialIo->SetAttributes`. -/
structure SerialAttributes where
  BaudRate : Nat
  ReceiveFifoDepth : Nat
  Timeout : Nat
  Parity : EFI_PARITY_TYPE
  DataBits : Nat
  StopBits : EFI_STOP_BITS_TYPE
  deriving DecidableEq, Repr

/-- The transport `EFI_SERIAL_IO_PROTOCOL`, with transport state `σ`.

`Read` and `Write` take the value of `*BufferSize` on entry and return the value the
transport leaves in `*BufferSize`.  The UEFI specification has the transport store there
the number of bytes it moved, which is at most the size it was given; the driver does not
check this and uses the value as it is, so here a transport may leave any number.  The
buffer pointer handed to `Write` is represented by its offset in the buffer of the
caller. -/
structure EFI_SERIAL_IO_PROTOCOL (σ : Type) where
  Reset : σ → σ × EFI_STATUS
  SetAttributes : σ → SerialAttributes → σ × EFI_STATUS
  GetControl : σ → σ × EFI_STATUS × Nat
  Write : σ → (BufferSize : Nat) → (Offset : Nat) → σ × EFI_STATUS × Nat
  Read : σ → (BufferSize : Nat) → σ × EFI_STATUS × Nat

/-- One call of a member function of the transport, or of one of the boot services
`OpenProtocol` (with its `Attributes`), `CloseProtocol` and
`InstallMultipleProtocolInterfaces`, with what it returned. -/
inductive Call where
  | Reset (Status : EFI_STATUS)
  | SetAttributes (Attributes : SerialAttributes) (Status : EFI_STATUS)
  | GetControl (Status : EFI_STATUS) (Control : Nat)
  | Write (BufferSize Offset : Nat) (Status : EFI_STATUS) (Written : Nat)
  | Read (BufferSize : Nat) (Status : EFI_STATUS) (Transferred : Nat)
  | OpenProtocol (Attributes : Nat) (Status : EFI_STATUS)
  | CloseProtocol (Status : EFI_STATUS)
  | InstallMultipleProtocolInterfaces (Status : EFI_STATUS)
  deriving DecidableEq, Repr

/-- Subtraction of `UINT32` values, which wraps modulo `2 ^ 32`. -/
def sub32 (a b : Nat) : Nat := (a + 4294967296 - b % 4294967296) % 4294967296

/-- Subtraction of `UINTN` values in a 64-bit build: the difference when the subtrahend is
not the larger one, and the value the difference wraps to modulo `2 ^ 64` when it is. -/
def subN (a b : Nat) : Nat :=
  if b ≤ a then a - b
  else (a + 18446744073709551616 - b % 18446744073709551616) % 18446744073709551616

/-! ## DebugPortRead -/

/-- The local variables of `DebugPortRead`; `BufferPtr` is kept as the offset
`BufferPtr - (UINT8 *) Buffer`, and `log` is the list of transport calls made so far. -/
structure ReadState (σ : Type) where
  dev : σ
  Timeout : Nat
  LocalBufferSize : Nat
  BufferPtr : Nat
  Status : EFI_STATUS
  log : List Call

/-- The two statements that end an iteration of the loop of `DebugPortRead`:
`BufferPtr += LocalBufferSize; LocalBufferSize = *BufferSize - (BufferPtr - Buffer);`.
The subtraction is one of `UINTN` values and wraps when the transport reported more bytes
than were left to read. -/
def DebugPortRead.advance {σ : Type} (BufferSize : Nat) (st : ReadState σ) : ReadState σ :=
  { st with
    BufferPtr := st.BufferPtr + st.LocalBufferSize
    LocalBufferSize := subN BufferSize (st.BufferPtr + st.LocalBufferSize) }

/-- One execution of the body of the `do ... while` loop of `DebugPortRead`.  `Q` is
`DEBUGPORT_UART_DEFAULT_TIMEOUT`.  The boolean is `true` when the body left through
`break`. -/
def DebugPortRead.body {σ : Type} (T : EFI_SERIAL_IO_PROTOCOL σ) (Q BufferSize : Nat)
    (st : ReadState σ) : ReadState σ × Bool :=
  let r := T.Read st.dev st.LocalBufferSize
  let st1 : ReadState σ :=
    { st with
      dev := r.1
      Status := r.2.1
      LocalBufferSize := r.2.2
      log := st.log ++ [Call.Read st.LocalBufferSize r.2.1 r.2.2] }
  if st1.Status = EFI_TIMEOUT then
    (DebugPortRead.advance BufferSize
      { st1 with Timeout := if st1.Timeout > Q then sub32 st1.Timeout Q else 0 }, false)
  else if EFI_ERROR st1.Status then
    (st1, true)
  else
    (DebugPortRead.advance BufferSize st1, false)

/-- The `do ... while (LocalBufferSize != 0 && Timeout > 0)` loop of `DebugPortRead`, for at
most `fuel` iterations. -/
def DebugPortRead.loop {σ : Type} (T : EFI_SERIAL_IO_PROTOCOL σ) (Q BufferSize : Nat) :
    Nat → ReadState σ → Option (ReadState σ)
  | 0, _ => none
  | fuel + 1, st =>
    let next := DebugPortRead.body T Q BufferSize st
    if !next.2 && next.1.LocalBufferSize != 0 && decide (next.1.Timeout > 0) then
      DebugPortRead.loop T Q BufferSize fuel next.1
    else
      some next.1

/-- The function `DebugPortRead (This, Timeout, BufferSize, Buffer)`.  In the state it
returns, `BufferPtr` is the value stored to `*BufferSize` and `Status` is the returned
status (`Status` is not initialised before the loop, whose body always assigns it). -/
def DebugPortRead {σ : Type} (T : EFI_SERIAL_IO_PROTOCOL σ) (Q : Nat) (fuel : Nat) (dev : σ)
    (Timeout BufferSize : Nat) : Option (ReadState σ) :=
  DebugPortRead.loop T Q BufferSize fuel
    { dev := dev, Timeout := Timeout, LocalBufferSize := BufferSize, BufferPtr := 0,
      Status := EFI_SUCCESS, log := [] }

/-! ## DebugPortWrite -/

/-- The local variables of `DebugPortWrite`, with the list of transport calls made so
far. -/
structure WriteState (σ : Type) where
  dev : σ
  Position : Nat
  WriteSize : Nat
  Status : EFI_STATUS
  log : List Call

/-- The condition of the `for` loop of `DebugPortWrite`:
`Position < *BufferSize && !EFI_ERROR (Status)`. -/
def DebugPortWrite.cond {σ : Type} (BufferSize : Nat) (st : WriteState σ) : Bool :=
  decide (st.Position < BufferSize) && !EFI_ERROR st.Status

/-- One iteration of the `for` loop of `DebugPortWrite`: the body followed by the increment
`Position += WriteSize`.  `WriteSize` is passed to the transport by reference, so the
increment and the next iteration see the value the transport left in it, whatever it is.
The subtraction `*BufferSize - Position` is made under `Position < *BufferSize` and does
not wrap.  The value of `SerialControl` and the status of `GetControl` are not used. -/
def DebugPortWrite.body {σ : Type} (T : EFI_SERIAL_IO_PROTOCOL σ) (BufferSize : Nat)
    (st : WriteState σ) : WriteState σ :=
  let c := T.GetControl st.dev
  let WriteSize :=
    if BufferSize - st.Position < 8 then BufferSize - st.Position else st.WriteSize
  let w := T.Write c.1 WriteSize st.Position
  { dev := w.1
    Position := st.Position + w.2.2
    WriteSize := w.2.2
    Status := w.2.1
    log := st.log ++ [Call.GetControl c.2.1 c.2.2, Call.Write WriteSize st.Position w.2.1 w.2.2] }

/-- The `for` loop of `DebugPortWrite`, for at most `fuel` iterations. -/
def DebugPortWrite.loop {σ : Type} (T : EFI_SERIAL_IO_PROTOCOL σ) (BufferSize : Nat) :
    Nat → WriteState σ → Option (WriteState σ)
  | 0, st => if DebugPortWrite.cond BufferSize st then none else some st
  | fuel + 1, st =>
    if DebugPortWrite.cond BufferSize st then
      DebugPortWrite.loop T BufferSize fuel (DebugPortWrite.body T BufferSize st)
    else
      some st

/-- The function `DebugPortWrite (This, Timeout, BufferSize, Buffer)`.  In the state it
returns, `Position` is the value stored to `*BufferSize` and `Status` is the returned
status.  The argument `Timeout` is not used by the function. -/
def DebugPortWrite {σ : Type} (T : EFI_SERIAL_IO_PROTOCOL σ) (fuel : Nat) (dev : σ)
    (_Timeout BufferSize : Nat) : Option (WriteState σ) :=
  DebugPortWrite.loop T BufferSize fuel
    { dev := dev, Position := 0, WriteSize := 8, Status := EFI_SUCCESS, log := [] }

/-! ## DebugPortPoll -/

/-- The part of `DebugPortPoll` that follows the call of `GetControl`: the status returned
for the status `Status` and the control bits `SerialControl` that `GetControl` returned. -/
def DebugPortPoll.status (Status : EFI_STATUS) (SerialControl : Nat) : EFI_STATUS :=
  if !EFI_ERROR Status then
    if SerialControl &&& EFI_SERIAL_INPUT_BUFFER_EMPTY ≠ 0 then EFI_NOT_READY else EFI_SUCCESS
  else Status

/-- The function `DebugPortPoll (This)`: the new transport state, the returned status and
the transport calls made. -/
def DebugPortPoll {σ : Type} (T : EFI_SERIAL_IO_PROTOCOL σ) (dev : σ) :
    σ × EFI_STATUS × List Call :=
  let c := T.GetControl dev
  (c.1, DebugPortPoll.status c.2.1 c.2.2, [Call.GetControl c.2.1 c.2.2])

/-! ## DebugPortReset -/

/-- The loop `while (This->Poll (This) == EFI_SUCCESS) { BufferSize = 1; This->Read (This,
0, &BufferSize, &BitBucket); }` of `DebugPortReset`, for at most `fuel` iterations.  The
members `Poll` and `Read` of the interface are `DebugPortPoll` and `DebugPortRead`
(`InitializeDebugPortDriver`).  The result is the transport state, the returned status and
the transport calls made. -/
def DebugPortReset.loop {σ : Type} (T : EFI_SERIAL_IO_PROTOCOL σ) (Q : Nat) :
    Nat → σ → List Call → Option (σ × EFI_STATUS × List Call)
  | 0, dev, log =>
    let p := DebugPortPoll T dev
    if p.2.1 = EFI_SUCCESS then none else some (p.1, EFI_SUCCESS, log ++ p.2.2)
  | fuel + 1, dev, log =>
    let p := DebugPortPoll T dev
    if p.2.1 = EFI_SUCCESS then
      match DebugPortRead T Q (fuel + 1) p.1 0 1 with
      | none => none
      | some r => DebugPortReset.loop T Q fuel r.dev (log ++ p.2.2 ++ r.log)
    else
      some (p.1, EFI_SUCCESS, log ++ p.2.2)

/-- The function `DebugPortReset (This)`. -/
def DebugPortReset {σ : Type} (T : EFI_SERIAL_IO_PROTOCOL σ) (Q : Nat) (fuel : Nat) (dev : σ) :
    Option (σ × EFI_STATUS × List Call) :=
  DebugPortReset.loop T Q fuel dev []

/-! ## The device record and the boot services -/

/-- An `EFI_HANDLE` other than `NULL`; a handle that may be `NULL` is an `Option`. -/
abbrev EFI_HANDLE := Nat

/-- A node of a device path: the fields of its header and the bytes that follow it. -/
structure DevicePathNode where
  Type_ : Nat
  SubType : Nat
  Length : Nat
  Data : List Nat
  deriving DecidableEq, Repr

/-- A device path: its nodes up to the end node. -/
abbrev DevicePath := List DevicePathNode

def MESSAGING_DEVICE_PATH : Nat := 0x03
def MSG_VENDOR_DP : Nat := 0x0a

/-- The bytes of `gEfiDebugPortDevicePathGuid`, which is `EFI_DEBUGPORT_PROTOCOL_GUID`. -/
def gEfiDebugPortDevicePathGuid : List Nat :=
  [0xD2, 0xE8, 0xA4, 0xEB, 0x58, 0x38, 0xEC, 0x41, 0xA2, 0x81, 0x26, 0x47, 0xBA, 0x96, 0x60, 0xD0]

/-- The protocols the driver names when it calls the boot services. -/
inductive ProtocolGuid where
  | SerialIoProtocol | DevicePathProtocol | DebugPortProtocol
  deriving DecidableEq, Repr

def EFI_OPEN_PROTOCOL_BY_CHILD_CONTROLLER : Nat := 0x08
def EFI_OPEN_PROTOCOL_BY_DRIVER : Nat := 0x10
def EFI_OPEN_PROTOCOL_EXCLUSIVE : Nat := 0x20

/-- The fields of `DEBUGPORT_DEVICE` (declared in `DebugPort.h`) that the functions of
`DebugPort.c` read or write.  `SerialIoBinding` points to the `SerialIo` instance of a
handle and is represented by that handle. -/
structure DEBUGPORT_DEVICE where
  DebugPortDeviceHandle : Option EFI_HANDLE
  DebugPortDevicePath : Option DevicePath
  SerialIoDeviceHandle : Option EFI_HANDLE
  SerialIoBinding : Option EFI_HANDLE
  BaudRate : Nat
  ReceiveFifoDepth : Nat
  Timeout : Nat
  Parity : EFI_PARITY_TYPE
  DataBits : Nat
  StopBits : EFI_STOP_BITS_TYPE
  DebugPortVariable : Option DevicePath
  deriving DecidableEq, Repr

/-- The configuration held in the device record, in the order `SetAttributes` takes it. -/
def DEBUGPORT_DEVICE.Attributes (d : DEBUGPORT_DEVICE) : SerialAttributes :=
  { BaudRate := d.BaudRate, ReceiveFifoDepth := d.ReceiveFifoDepth, Timeout := d.Timeout,
    Parity := d.Parity, DataBits := d.DataBits, StopBits := d.StopBits }

/-- The boot services and device path library functions called by `DebugPortStart`, with
state `ε`.  `OpenProtocol` takes the value of `*Interface` on entry and returns the value it
leaves there; `InstallMultipleProtocolInterfaces` does the same with `*Handle`;
`DevicePathFromHandle` and `AppendDevicePathNode` return `none` for `NULL`. -/
structure EFI_BOOT_SERVICES (ε : Type) where
  OpenProtocol : ε → (Handle : EFI_HANDLE) → ProtocolGuid → (Interface : Option EFI_HANDLE) →
    (AgentHandle : EFI_HANDLE) → (ControllerHandle : Option EFI_HANDLE) → (Attributes : Nat) →
    ε × EFI_STATUS × Option EFI_HANDLE
  CloseProtocol : ε → (Handle : Option EFI_HANDLE) → ProtocolGuid → (AgentHandle : EFI_HANDLE) →
    (ControllerHandle : Option EFI_HANDLE) → ε × EFI_STATUS
  InstallMultipleProtocolInterfaces : ε → (Handle : Option EFI_HANDLE) → DevicePath →
    ε × EFI_STATUS × Option EFI_HANDLE
  DevicePathFromHandle : ε → EFI_HANDLE → Option DevicePath
  AppendDevicePathNode : ε → DevicePath → DevicePathNode → ε × Option DevicePath

/-- The state the driver binding functions work on: the record `*gDebugPortDevice`, the
state of the transport and of the boot services, and the calls made so far. -/
structure DriverState (σ ε : Type) where
  Device : DEBUGPORT_DEVICE
  Serial : σ
  Boot : ε
  log : List Call

/-! ## DebugPortStart -/

/-- The node `DebugPortDP` built by `DebugPortStart`: a vendor-defined messaging node of
`sizeof (DEBUGPORT_DEVICE_PATH)` bytes, a header of 4 bytes and the GUID. -/
def DebugPortDP : DevicePathNode :=
  { Type_ := MESSAGING_DEVICE_PATH, SubType := MSG_VENDOR_DP, Length := 20,
    Data := gEfiDebugPortDevicePathGuid }

/-- The assignments of `DebugPortStart` that replace the configuration after a failed
`SetAttributes`. -/
def DebugPortStart.fallback (d : DEBUGPORT_DEVICE) : DEBUGPORT_DEVICE :=
  { d with
    BaudRate := 0
    Parity := EFI_PARITY_TYPE.DefaultParity
    DataBits := 0
    StopBits := EFI_STOP_BITS_TYPE.DefaultStopBits
    ReceiveFifoDepth := 0 }

/-- The call `gBS->CloseProtocol (ControllerHandle, &gEfiSerialIoProtocolGuid,
This->DriverBindingHandle, ControllerHandle)` that `DebugPortStart` makes before it returns
an error. -/
def DebugPortStart.close {σ ε : Type} (BS : EFI_BOOT_SERVICES ε)
    (DriverBindingHandle ControllerHandle : EFI_HANDLE) (w : DriverState σ ε) : DriverState σ ε :=
  let c := BS.CloseProtocol w.Boot (some ControllerHandle) ProtocolGuid.SerialIoProtocol
    DriverBindingHandle (some ControllerHandle)
  { w with Boot := c.1, log := w.log ++ [Call.CloseProtocol c.2] }

/-- A `DEBUG_CODE` block of `DebugPortStart`: when debug code is enabled, `DebugPortWrite`
of a message of `BufferSize` bytes, whose result is ignored. -/
def DebugPortStart.debugWrite {σ ε : Type} (T : EFI_SERIAL_IO_PROTOCOL σ) (DebugCode : Bool)
    (fuel BufferSize : Nat) (w : DriverState σ ε) : Option (DriverState σ ε) :=
  if DebugCode then
    match DebugPortWrite T fuel w.Serial 0 BufferSize with
    | none => none
    | some r => some { w with Serial := r.dev, log := w.log ++ r.log }
  else some w

/-- The part of `DebugPortStart` from the call of `SerialIo->Reset` to the end: reset of the
transport, creation of the device path of the DebugPort, publication of the protocols, and
opening of the transport by the child. -/
def DebugPortStart.publish {σ ε : Type} (T : EFI_SERIAL_IO_PROTOCOL σ) (BS : EFI_BOOT_SERVICES ε)
    (DebugCode : Bool) (fuel : Nat) (DriverBindingHandle ControllerHandle : EFI_HANDLE)
    (w : DriverState σ ε) : Option (DriverState σ ε × EFI_STATUS) :=
  let r := T.Reset w.Serial
  let w1 : DriverState σ ε := { w with Serial := r.1, log := w.log ++ [Call.Reset r.2] }
  let Dp1 : DevicePath := (BS.DevicePathFromHandle w1.Boot ControllerHandle).getD []
  let ap := BS.AppendDevicePathNode w1.Boot Dp1 DebugPortDP
  let w2 : DriverState σ ε :=
    { w1 with Boot := ap.1, Device := { w1.Device with DebugPortDevicePath := ap.2 } }
  match ap.2 with
  | none => some (w2, EFI_OUT_OF_RESOURCES)
  | some path =>
    let i := BS.InstallMultipleProtocolInterfaces w2.Boot w2.Device.DebugPortDeviceHandle path
    let w3 : DriverState σ ε :=
      { w2 with
        Boot := i.1
        Device := { w2.Device with DebugPortDeviceHandle := i.2.2 }
        log := w2.log ++ [Call.InstallMultipleProtocolInterfaces i.2.1] }
    if EFI_ERROR i.2.1 then
      some (DebugPortStart.close BS DriverBindingHandle ControllerHandle w3, i.2.1)
    else
      let o := BS.OpenProtocol w3.Boot ControllerHandle ProtocolGuid.SerialIoProtocol
        w3.Device.SerialIoBinding DriverBindingHandle w3.Device.DebugPortDeviceHandle
        EFI_OPEN_PROTOCOL_BY_CHILD_CONTROLLER
      let w4 : DriverState σ ε :=
        { w3 with
          Boot := o.1
          Device := { w3.Device with SerialIoBinding := o.2.2 }
          log := w3.log ++ [Call.OpenProtocol EFI_OPEN_PROTOCOL_BY_CHILD_CONTROLLER o.2.1] }
      if EFI_ERROR o.2.1 then
        match DebugPortStart.debugWrite T DebugCode fuel 48 w4 with
        | none => none
        | some w5 => some (DebugPortStart.close BS DriverBindingHandle ControllerHandle w5, o.2.1)
      else
        match DebugPortStart.debugWrite T DebugCode fuel 38 w4 with
        | none => none
        | some w5 => some (w5, EFI_SUCCESS)

/-- The function `DebugPortStart (This, ControllerHandle, RemainingDevicePath)`, with
`DriverBindingHandle` for `This->DriverBindingHandle`.  `DebugCode` tells whether the
`DEBUG_CODE` blocks are compiled in and enabled; `fuel` bounds the iterations of the
`DebugPortWrite` they call.  `RemainingDevicePath` is not used by the function. -/
def DebugPortStart {σ ε : Type} (T : EFI_SERIAL_IO_PROTOCOL σ) (BS : EFI_BOOT_SERVICES ε)
    (DebugCode : Bool) (fuel : Nat) (DriverBindingHandle ControllerHandle : EFI_HANDLE)
    (w : DriverState σ ε) : Option (DriverState σ ε × EFI_STATUS) :=
  let o := BS.OpenProtocol w.Boot ControllerHandle ProtocolGuid.SerialIoProtocol
    w.Device.SerialIoBinding DriverBindingHandle (some ControllerHandle)
    (EFI_OPEN_PROTOCOL_BY_DRIVER ||| EFI_OPEN_PROTOCOL_EXCLUSIVE)
  let w1 : DriverState σ ε :=
    { w with
      Boot := o.1
      Device := { w.Device with SerialIoBinding := o.2.2 }
      log := w.log ++ [Call.OpenProtocol (EFI_OPEN_PROTOCOL_BY_DRIVER ||| EFI_OPEN_PROTOCOL_EXCLUSIVE)
        o.2.1] }
  if EFI_ERROR o.2.1 then
    some (w1, o.2.1)
  else
    let w2 : DriverState σ ε :=
      { w1 with Device := { w1.Device with SerialIoDeviceHandle := some ControllerHandle } }
    let a := T.SetAttributes w2.Serial w2.Device.Attributes
    let w3 : DriverState σ ε :=
      { w2 with Serial := a.1, log := w2.log ++ [Call.SetAttributes w2.Device.Attributes a.2] }
    if EFI_ERROR a.2 then
      let w4 : DriverState σ ε := { w3 with Device := DebugPortStart.fallback w3.Device }
      let b := T.SetAttributes w4.Serial w4.Device.Attributes
      let w5 : DriverState σ ε :=
        { w4 with Serial := b.1, log := w4.log ++ [Call.SetAttributes w4.Device.Attributes b.2] }
      if EFI_ERROR b.2 then
        some (DebugPortStart.close BS DriverBindingHandle ControllerHandle w5, b.2)
      else
        DebugPortStart.publish T BS DebugCode fuel DriverBindingHandle ControllerHandle w5
    else
      DebugPortStart.publish T BS DebugCode fuel DriverBindingHandle ControllerHandle w3

/-- A device record as `InitializeDebugPortDriver` leaves it: zeroed, with a default
configuration of 115200 baud, a FIFO depth of 16, a timeout of 50000, default parity,
8 data bits and 1 stop bit. -/
def exampleDevice : DEBUGPORT_DEVICE :=
  { DebugPortDeviceHandle := none, DebugPortDevicePath := none, SerialIoDeviceHandle := none,
    SerialIoBinding := none, BaudRate := 115200, ReceiveFifoDepth := 16, Timeout := 50000,
    Parity := EFI_PARITY_TYPE.DefaultParity, DataBits := 8,
    StopBits := EFI_STOP_BITS_TYPE.OneStopBit, DebugPortVariable := none }

/-! ## InitializeDebugPortDriver and GetDebugPortVariable -/

def EFI_INVALID_PARAMETER : EFI_STATUS := ENCODE_ERROR 2
def EFI_BUFFER_TOO_SMALL : EFI_STATUS := ENCODE_ERROR 5
def EFI_NOT_FOUND : EFI_STATUS := ENCODE_ERROR 14

/-- The fields of a `UART_DEVICE_PATH` node that `GetDebugPortVariable` copies to the device
record. -/
structure UART_DEVICE_PATH where
  BaudRate : Nat
  DataBits : Nat
  Parity : EFI_PARITY_TYPE
  StopBits : EFI_STOP_BITS_TYPE
  deriving DecidableEq, Repr

/-- What the headers, which are not part of the sources, declare for UART nodes: the macro
`EfiIsUartDevicePath`, and the layout of `UART_DEVICE_PATH`, given as the function `Fields`
that reads the four fields of a node through the cast `(UART_DEVICE_PATH *) DevicePath`. -/
structure UartNodeFormat where
  EfiIsUartDevicePath : DevicePathNode → Bool
  Fields : DevicePathNode → UART_DEVICE_PATH

/-- The runtime services, boot services and library functions that `GetDebugPortVariable`,
`DebugPortSupported` and `DebugPortStop` call in addition to those of `EFI_BOOT_SERVICES`.
`GetVariable` stands for `gRT->GetVariable (EFI_DEBUGPORT_VARIABLE_NAME,
&gEfiDebugPortVariableGuid, NULL, &DataSize, Data)`: it takes the value of `DataSize` on
entry and returns the status, the value it leaves in `DataSize`, and the contents of the
buffer `Data` after the call, read as a device path.  `AllocatePool` tells whether the
allocation succeeded.  `FreePool` takes the pointer it is handed, `none` for `NULL` and
otherwise the buffer, which is represented by its contents; it returns nothing, and what the
call does to the pool, also when the buffer is `NULL` or was freed before, is left to the
state of the services.  `DuplicateDevicePath` returns `none` for `NULL`, `LocateDevicePath`
returns the status, the remaining device path it leaves in `*DevicePath` and the handle it
leaves in `*Device`. -/
structure EFI_DRIVER_SERVICES (ε : Type) extends EFI_BOOT_SERVICES ε where
  GetVariable : ε → (DataSize : Nat) → ε × EFI_STATUS × Nat × DevicePath
  AllocatePool : ε → (AllocationSize : Nat) → ε × Bool
  FreePool : ε → (Buffer : Option DevicePath) → ε
  DuplicateDevicePath : ε → DevicePath → ε × Option DevicePath
  LocateProtocol : ε → ProtocolGuid → ε × EFI_STATUS
  LocateDevicePath : ε → ProtocolGuid → DevicePath → ε × EFI_STATUS × DevicePath × EFI_HANDLE
  UninstallMultipleProtocolInterfaces : ε → (Handle : Option EFI_HANDLE) → Option DevicePath →
    ε × EFI_STATUS

/-- The function `InitializeDebugPortDriver`, after the installation of the driver binding:
the device record it allocates and fills in, and the returned status.  `allocated` tells
whether `AllocateZeroPool` succeeded; `D` holds the six constants
`DEBUGPORT_UART_DEFAULT_BAUDRATE`, `..._FIFO_DEPTH`, `..._TIMEOUT`, `..._PARITY`,
`..._DATA_BITS` and `..._STOP_BITS` of `DebugPort.h`. -/
def InitializeDebugPortDriver (D : SerialAttributes) (allocated : Bool) :
    Option DEBUGPORT_DEVICE × EFI_STATUS :=
  if allocated then
    (some
      { DebugPortDeviceHandle := none, DebugPortDevicePath := none, SerialIoDeviceHandle := none,
        SerialIoBinding := none, BaudRate := D.BaudRate, ReceiveFifoDepth := D.ReceiveFifoDepth,
        Timeout := D.Timeout, Parity := D.Parity, DataBits := D.DataBits,
        StopBits := D.StopBits, DebugPortVariable := none },
      EFI_SUCCESS)
  else
    (none, EFI_OUT_OF_RESOURCES)

/-- The first part of `GetDebugPortVariable`: the call of `GetVariable` with a `DataSize`
of 0 and, when it returns `EFI_BUFFER_TOO_SMALL`, the release of the old buffer, the
allocation of the new one and the second call of `GetVariable`, which fills it and whose
status is not looked at.  The boolean tells whether the first call returned
`EFI_BUFFER_TOO_SMALL`. -/
def GetDebugPortVariable.fetch {σ ε : Type} (S : EFI_DRIVER_SERVICES ε) (w : DriverState σ ε) :
    DriverState σ ε × Bool :=
  let g := S.GetVariable w.Boot 0
  if g.2.1 = EFI_BUFFER_TOO_SMALL then
    let e1 :=
      if w.Device.DebugPortVariable.isSome then S.FreePool g.1 w.Device.DebugPortVariable
      else g.1
    let a := S.AllocatePool e1 g.2.2.1
    if a.2 then
      let g2 := S.GetVariable a.1 g.2.2.1
      ({ w with Boot := g2.1, Device := { w.Device with DebugPortVariable := some g2.2.2.2 } },
        true)
    else
      ({ w with Boot := a.1, Device := { w.Device with DebugPortVariable := none } }, true)
  else
    ({ w with Boot := g.1 }, false)

/-- The body of `if (DebugPortDevice->DebugPortVariable != NULL)` in `GetDebugPortVariable`
after the second call of `GetVariable`, on the device path `v` in the new buffer: the
search for the first UART node and, when the path ends without one, the release of the
buffer, otherwise the copy of the fields of that node to the device record.  `D` holds the
constants `DEBUGPORT_UART_DEFAULT_FIFO_DEPTH` and `DEBUGPORT_UART_DEFAULT_TIMEOUT`. -/
def GetDebugPortVariable.parse {σ ε : Type} (S : EFI_DRIVER_SERVICES ε) (F : UartNodeFormat)
    (D : SerialAttributes) (v : DevicePath) (w : DriverState σ ε) : DriverState σ ε :=
  match v.find? F.EfiIsUartDevicePath with
  | none =>
    { w with
      Boot := S.FreePool w.Boot w.Device.DebugPortVariable
      Device := { w.Device with DebugPortVariable := none } }
  | some DevicePath =>
    { w with
      Device :=
        { w.Device with
          BaudRate := (F.Fields DevicePath).BaudRate
          ReceiveFifoDepth := D.ReceiveFifoDepth
          Timeout := D.Timeout
          Parity := (F.Fields DevicePath).Parity
          DataBits := (F.Fields DevicePath).DataBits
          StopBits := (F.Fields DevicePath).StopBits } }

/-- The function `GetDebugPortVariable (DebugPortDevice)`, called on `gDebugPortDevice`. -/
def GetDebugPortVariable {σ ε : Type} (S : EFI_DRIVER_SERVICES ε) (F : UartNodeFormat)
    (D : SerialAttributes) (w : DriverState σ ε) : DriverState σ ε :=
  let f := GetDebugPortVariable.fetch S w
  if f.2 then
    match f.1.Device.DebugPortVariable with
    | some v => GetDebugPortVariable.parse S F D v f.1
    | none => f.1
  else f.1

/-! ## DebugPortSupported -/

/-- The function `DebugPortStop (This, ControllerHandle, NumberOfChildren,
ChildHandleBuffer)`, with `DriverBindingHandle` for `This->DriverBindingHandle`.
`ChildHandleBuffer` is not used by the function. -/
def DebugPortStop {σ ε : Type} (S : EFI_DRIVER_SERVICES ε)
    (DriverBindingHandle ControllerHandle : EFI_HANDLE) (NumberOfChildren : Nat)
    (w : DriverState σ ε) : DriverState σ ε × EFI_STATUS :=
  if NumberOfChildren = 0 then
    let c1 := S.CloseProtocol w.Boot (some ControllerHandle) ProtocolGuid.SerialIoProtocol
      DriverBindingHandle (some ControllerHandle)
    let w1 : DriverState σ ε :=
      { w with
        Boot := c1.1
        Device := { w.Device with SerialIoBinding := none }
        log := w.log ++ [Call.CloseProtocol c1.2] }
    let c2 := S.CloseProtocol w1.Boot (some ControllerHandle) ProtocolGuid.DevicePathProtocol
      DriverBindingHandle (some ControllerHandle)
    let w2 : DriverState σ ε :=
      { w1 with
        Boot := S.FreePool c2.1 w1.Device.DebugPortDevicePath
        log := w1.log ++ [Call.CloseProtocol c2.2] }
    (w2, EFI_SUCCESS)
  else
    let c := S.CloseProtocol w.Boot w.Device.SerialIoDeviceHandle ProtocolGuid.SerialIoProtocol
      DriverBindingHandle w.Device.DebugPortDeviceHandle
    let w1 : DriverState σ ε := { w with Boot := c.1, log := w.log ++ [Call.CloseProtocol c.2] }
    if EFI_ERROR c.2 then
      (w1, c.2)
    else
      let u := S.UninstallMultipleProtocolInterfaces w1.Boot w1.Device.DebugPortDeviceHandle
        w1.Device.DebugPortDevicePath
      if EFI_ERROR u.2 then
        let o := S.OpenProtocol u.1 ControllerHandle ProtocolGuid.SerialIoProtocol
          w1.Device.SerialIoBinding DriverBindingHandle w1.Device.DebugPortDeviceHandle
          EFI_OPEN_PROTOCOL_BY_CHILD_CONTROLLER
        ({ w1 with
            Boot := o.1
            Device := { w1.Device with SerialIoBinding := o.2.2 }
            log := w1.log ++ [Call.OpenProtocol EFI_OPEN_PROTOCOL_BY_CHILD_CONTROLLER o.2.1] },
          u.2)
      else
        ({ w1 with Boot := u.1, Device := { w1.Device with DebugPortDeviceHandle := none } }, u.2)

/-! ## An environment for the examples -/

/-- A UART node format: a UART node is a messaging node (type 3) of subtype 14; its data
are 4 reserved bytes, the baud rate in 8 bytes (of which the examples use the lowest 2),
the data bits, the parity and the stop bits. -/
def exampleUartFormat : UartNodeFormat where
  EfiIsUartDevicePath := fun n => n.Type_ == 3 && n.SubType == 14
  Fields := fun n =>
    { BaudRate := n.Data.getD 4 0 + 256 * n.Data.getD 5 0
      DataBits := n.Data.getD 12 0
      Parity := if n.Data.getD 13 0 = 2 then EFI_PARITY_TYPE.EvenParity
        else if n.Data.getD 13 0 = 1 then EFI_PARITY_TYPE.NoParity
        else EFI_PARITY_TYPE.DefaultParity
      StopBits := if n.Data.getD 14 0 = 1 then EFI_STOP_BITS_TYPE.OneStopBit
        else EFI_STOP_BITS_TYPE.DefaultStopBits }

/-- A UART node for 9600 baud, 7 data bits, even parity and 1 stop bit. -/
def exampleUartNode : DevicePathNode :=
  { Type_ := 3, SubType := 14, Length := 19,
    Data := [0, 0, 0, 0, 0x80, 0x25, 0, 0, 0, 0, 0, 0, 7, 2, 1] }

/-- An ACPI node, which is not a UART node. -/
def exampleAcpiNode : DevicePathNode :=
  { Type_ := 2, SubType := 1, Length := 12, Data := [0xd0, 0x41, 0x05, 0x01, 0, 0, 0, 0] }

/-- The state of the example environment: the stored DebugPort variable, if any, the
answer of `LocateDevicePath` (status, remaining device path and handle), and the pointers
handed to `FreePool` so far. -/
structure ExampleEnv where
  Variable : Option DevicePath
  Located : EFI_STATUS × DevicePath × EFI_HANDLE
  Freed : List (Option DevicePath) := []

/-- Services that behave as the UEFI specification describes, over `ExampleEnv`.
`GetVariable` returns `EFI_NOT_FOUND` without a stored variable, `EFI_BUFFER_TOO_SMALL` and
the size of the variable when `DataSize` is too small, and fills the buffer otherwise.
`CloseProtocol` and `UninstallMultipleProtocolInterfaces` return `EFI_INVALID_PARAMETER` for
a `NULL` handle and succeed otherwise.  No DebugPort protocol is published, allocations
succeed, `FreePool` records the pointer it is handed, `OpenProtocol` succeeds,
`InstallMultipleProtocolInterfaces` creates the handle 100. -/
def exampleServices : EFI_DRIVER_SERVICES ExampleEnv where
  OpenProtocol := fun e Handle _ _ _ _ _ => (e, EFI_SUCCESS, some Handle)
  CloseProtocol := fun e Handle _ _ ControllerHandle =>
    (e, if Handle.isNone || ControllerHandle.isNone then EFI_INVALID_PARAMETER else EFI_SUCCESS)
  InstallMultipleProtocolInterfaces := fun e Handle _ => (e, EFI_SUCCESS, some (Handle.getD 100))
  DevicePathFromHandle := fun _ _ => some []
  AppendDevicePathNode := fun e p n => (e, some (p ++ [n]))
  GetVariable := fun e DataSize =>
    match e.Variable with
    | none => (e, EFI_NOT_FOUND, DataSize, [])
    | some v =>
      if DataSize < (v.map DevicePathNode.Length).sum + 4 then
        (e, EFI_BUFFER_TOO_SMALL, (v.map DevicePathNode.Length).sum + 4, [])
      else (e, EFI_SUCCESS, (v.map DevicePathNode.Length).sum + 4, v)
  AllocatePool := fun e _ => (e, true)
  FreePool := fun e Buffer => { e with Freed := e.Freed ++ [Buffer] }
  DuplicateDevicePath := fun e p => (e, some p)
  LocateProtocol := fun e _ => (e, EFI_NOT_FOUND)
  LocateDevicePath := fun e _ _ => (e, e.Located.1, e.Located.2.1, e.Located.2.2)
  UninstallMultipleProtocolInterfaces := fun e Handle _ =>
    (e, if Handle.isNone then EFI_INVALID_PARAMETER else EFI_SUCCESS)

/-- The device record of `exampleDevice` once `DebugPortStart` has bound it to the
transport on handle 7 and published the DebugPort on handle 100. -/
def exampleBoundDevice : DEBUGPORT_DEVICE :=
  { exampleDevice with
    DebugPortDeviceHandle := some 100
    DebugPortDevicePath := some [DebugPortDP]
    SerialIoDeviceHandle := some 7
    SerialIoBinding := some 7 }

/-! ## Reading the list of transport calls -/

/-- The status a transport call returned. -/
def Call.Status : Call → EFI_STATUS
  | .Reset s => s
  | .SetAttributes _ s => s
  | .GetControl s _ => s
  | .Write _ _ s _ => s
  | .Read _ s _ => s
  | .OpenProtocol _ s => s
  | .CloseProtocol s => s
  | .InstallMultipleProtocolInterfaces s => s

/-- The number of bytes a `Read` or `Write` call reported to have moved. -/
def Call.Count : Call → Nat
  | .Write _ _ _ n => n
  | .Read _ _ n => n
  | _ => 0

def Call.isRead : Call → Bool
  | .Read _ _ _ => true
  | _ => false

def Call.isWrite : Call → Bool
  | .Write _ _ _ _ => true
  | _ => false

/-- An error status other than `EFI_TIMEOUT`: the statuses on which the loop of
`DebugPortRead` takes its `break`. -/
def hardError (s : EFI_STATUS) : Bool := EFI_ERROR s && s != EFI_TIMEOUT

/-- The total number of bytes moved by the calls of a list. -/
def transferred (log : List Call) : Nat := (log.map Call.Count).sum

/-- The number of calls of a list that returned `EFI_TIMEOUT`. -/
def timeouts (log : List Call) : Nat := (log.filter (fun c => c.Status == EFI_TIMEOUT)).length

/-- The `(Offset, BufferSize)` arguments of the `Write` calls of a list, in order. -/
def writesOf : List Call → List (Nat × Nat)
  | [] => []
  | .Write n off _ _ :: rest => (off, n) :: writesOf rest
  | _ :: rest => writesOf rest

/-- The list consists of `Write` calls that are each preceded by exactly one `GetControl`
call, and of nothing else. -/
def queryThenWrite : List Call → Bool
  | [] => true
  | .GetControl _ _ :: .Write _ _ _ _ :: rest => queryThenWrite rest
  | _ => false

/-- The chunks of a buffer of `L` bytes cut into pieces of `C` bytes, as `(offset, length)`:
`⌈L / C⌉` chunks at the offsets `0, C, 2C, ...`, all of length `C` except the last, whose
length is `L mod C`, or `C` when `L` is a multiple of `C`. -/
def chunks (C L : Nat) : List (Nat × Nat) :=
  (List.range ((L + (C - 1)) / C)).map fun i =>
    (C * i, if i + 1 < (L + (C - 1)) / C then C else if L % C = 0 then C else L % C)

/-- The calls of a drain: each control query whose `DebugPortPoll` status is `EFI_SUCCESS`
is followed by one read of 1 byte and the next control query, and the list ends with the
first control query whose `DebugPortPoll` status is not `EFI_SUCCESS`. -/
def drainLog : List Call → Bool
  | [] => false
  | .GetControl s c :: rest =>
    match rest with
    | [] => DebugPortPoll.status s c != EFI_SUCCESS
    | .Read n _ _ :: rest1 =>
      DebugPortPoll.status s c == EFI_SUCCESS && n == 1 && drainLog rest1
    | _ => false
  | _ => false

/-! ## Some transports -/

/-- A transport that answers every `Read` and `Write` with the status `s`, moving the whole
buffer when `full` is set and nothing otherwise, and whose `GetControl` succeeds with the
control bits `ctrl`. -/
def constSerialIo (s : EFI_STATUS) (full : Bool) (ctrl : Nat) : EFI_SERIAL_IO_PROTOCOL Unit where
  Reset := fun d => (d, EFI_SUCCESS)
  SetAttributes := fun d _ => (d, s)
  GetControl := fun d => (d, EFI_SUCCESS, ctrl)
  Write := fun d n _ => (d, s, if full then n else 0)
  Read := fun d n => (d, s, if full then n else 0)

/-- A transport whose `GetControl` returns the status `sg` and the control bits `ctrl`, and
whose other functions succeed and move the whole buffer. -/
def controlSerialIo (sg : EFI_STATUS) (ctrl : Nat) : EFI_SERIAL_IO_PROTOCOL Unit where
  Reset := fun d => (d, EFI_SUCCESS)
  SetAttributes := fun d _ => (d, EFI_SUCCESS)
  GetControl := fun d => (d, sg, ctrl)
  Write := fun d n _ => (d, EFI_SUCCESS, n)
  Read := fun d n => (d, EFI_SUCCESS, n)

/-- A transport that follows a script: each `Read`, `Write` and `SetAttributes` consumes
the next entry `(status, count)` of the script, returns its status and moves `count` bytes,
or the whole buffer when that is smaller.  With the script exhausted, `Read` times out
with no data, `Write` and `SetAttributes` succeed.  `GetControl` succeeds and reports
`EFI_SERIAL_INPUT_BUFFER_EMPTY` exactly when the script is exhausted. -/
def scriptSerialIo : EFI_SERIAL_IO_PROTOCOL (List (EFI_STATUS × Nat)) where
  Reset := fun d => (d, EFI_SUCCESS)
  SetAttributes := fun d _ =>
    match d with
    | [] => ([], EFI_SUCCESS)
    | e :: rest => (rest, e.1)
  GetControl := fun d => (d, EFI_SUCCESS, if d.isEmpty then EFI_SERIAL_INPUT_BUFFER_EMPTY else 0)
  Write := fun d n _ =>
    match d with
    | [] => ([], EFI_SUCCESS, n)
    | e :: rest => (rest, e.1, min e.2 n)
  Read := fun d n =>
    match d with
    | [] => ([], EFI_TIMEOUT, 0)
    | e :: rest => (rest, e.1, min e.2 n)

/-- A transport that follows a script as `scriptSerialIo` does, but leaves the scripted
count in `*BufferSize` as it is, also when it exceeds the size it was given. -/
def rawSerialIo : EFI_SERIAL_IO_PROTOCOL (List (EFI_STATUS × Nat)) where
  Reset := fun d => (d, EFI_SUCCESS)
  SetAttributes := fun d _ =>
    match d with
    | [] => ([], EFI_SUCCESS)
    | e :: rest => (rest, e.1)
  GetControl := fun d => (d, EFI_SUCCESS, if d.isEmpty then EFI_SERIAL_INPUT_BUFFER_EMPTY else 0)
  Write := fun d n _ =>
    match d with
    | [] => ([], EFI_SUCCESS, n)
    | e :: rest => (rest, e.1, e.2)
  Read := fun d _ =>
    match d with
    | [] => ([], EFI_TIMEOUT, 0)
    | e :: rest => (rest, e.1, e.2)

/-- A transport whose `Read` and `Write` return the status `s` and leave `k` in
`*BufferSize`, whatever size they were given. -/
def fixedSerialIo (s : EFI_STATUS) (k : Nat) : EFI_SERIAL_IO_PROTOCOL Unit where
  Reset := fun d => (d, EFI_SUCCESS)
  SetAttributes := fun d _ => (d, EFI_SUCCESS)
  GetControl := fun d => (d, EFI_SUCCESS, 0)
  Write := fun d _ _ => (d, s, k)
  Read := fun d _ => (d, s, k)

/-! # Theorems -/

/-! ## Status codes -/

theorem EFI_ERROR_iff (s : EFI_STATUS) : EFI_ERROR s = true ↔ MAX_BIT ≤ s := by
  simp [EFI_ERROR]

theorem EFI_ERROR_TIMEOUT : EFI_ERROR EFI_TIMEOUT = true := by decide

theorem hardError_TIMEOUT : hardError EFI_TIMEOUT = false := by decide

theorem hardError_of_not_error {s : EFI_STATUS} (h : EFI_ERROR s = false) :
    hardError s = false := by
  simp [hardError, h]

/-- With a minuend below `2 ^ 32` that exceeds the subtrahend, `UINT32` subtraction does not
wrap. -/
theorem sub32_eq {a b : Nat} (ha : a < 4294967296) (hb : b < a) : sub32 a b = a - b := by
  unfold sub32
  rw [Nat.mod_eq_of_lt (by omega : b < 4294967296)]
  omega

theorem subN_of_le {a b : Nat} (h : b ≤ a) : subN a b = a - b := if_pos h

theorem subN_zero (a : Nat) : subN a 0 = a := by
  simp [subN]

/-- On `UINTN` values, `subN` is the subtraction modulo `2 ^ 64`. -/
theorem subN_eq_mod {a b : Nat} (ha : a < 18446744073709551616) (hb : b < 18446744073709551616) :
    subN a b = (a + 18446744073709551616 - b) % 18446744073709551616 := by
  unfold subN
  split
  · omega
  · rw [Nat.mod_eq_of_lt hb]

/-! ## The body of the loop of DebugPortRead -/

section ReadBody

variable {σ : Type} (T : EFI_SERIAL_IO_PROTOCOL σ) (Q BufferSize : Nat) (st : ReadState σ)

theorem DebugPortRead.body_log :
    (DebugPortRead.body T Q BufferSize st).1.log =
      st.log ++ [Call.Read st.LocalBufferSize (T.Read st.dev st.LocalBufferSize).2.1
        (T.Read st.dev st.LocalBufferSize).2.2] := by
  unfold DebugPortRead.body DebugPortRead.advance
  dsimp only
  split
  · rfl
  · split <;> rfl

theorem DebugPortRead.body_Status :
    (DebugPortRead.body T Q BufferSize st).1.Status = (T.Read st.dev st.LocalBufferSize).2.1 := by
  unfold DebugPortRead.body DebugPortRead.advance
  dsimp only
  split
  · rfl
  · split <;> rfl

theorem DebugPortRead.body_dev :
    (DebugPortRead.body T Q BufferSize st).1.dev = (T.Read st.dev st.LocalBufferSize).1 := by
  unfold DebugPortRead.body DebugPortRead.advance
  dsimp only
  split
  · rfl
  · split <;> rfl

theorem DebugPortRead.body_break :
    (DebugPortRead.body T Q BufferSize st).2 =
      hardError (T.Read st.dev st.LocalBufferSize).2.1 := by
  unfold DebugPortRead.body DebugPortRead.advance hardError
  dsimp only
  split
  · next h => rw [h]; simp
  · next h =>
    split
    · next h2 => simp [h2, h]
    · next h2 => simp [h2]

theorem DebugPortRead.body_BufferPtr :
    (DebugPortRead.body T Q BufferSize st).1.BufferPtr =
      st.BufferPtr + (if hardError (T.Read st.dev st.LocalBufferSize).2.1 then 0
        else (T.Read st.dev st.LocalBufferSize).2.2) := by
  unfold DebugPortRead.body DebugPortRead.advance hardError
  dsimp only
  split
  · next h => rw [h]; simp [EFI_ERROR_TIMEOUT]
  · next h =>
    split
    · next h2 => simp [h2, h]
    · next h2 => simp [h2]

theorem DebugPortRead.body_LocalBufferSize :
    (DebugPortRead.body T Q BufferSize st).1.LocalBufferSize =
      (if hardError (T.Read st.dev st.LocalBufferSize).2.1
        then (T.Read st.dev st.LocalBufferSize).2.2
        else subN BufferSize (st.BufferPtr + (T.Read st.dev st.LocalBufferSize).2.2)) := by
  unfold DebugPortRead.body DebugPortRead.advance hardError
  dsimp only
  split
  · next h => rw [h]; simp [EFI_ERROR_TIMEOUT]
  · next h =>
    split
    · next h2 => simp [h2, h]
    · next h2 => simp [h2]

theorem DebugPortRead.body_Timeout :
    (DebugPortRead.body T Q BufferSize st).1.Timeout =
      (if (T.Read st.dev st.LocalBufferSize).2.1 = EFI_TIMEOUT
        then (if st.Timeout > Q then sub32 st.Timeout Q else 0)
        else st.Timeout) := by
  unfold DebugPortRead.body DebugPortRead.advance
  dsimp only
  split
  · rfl
  · split <;> rfl

end ReadBody

/-! ## The loop of DebugPortRead -/

section ReadLoop

variable {σ : Type} (T : EFI_SERIAL_IO_PROTOCOL σ) (Q BufferSize : Nat)

theorem DebugPortRead.loop_succ (fuel : Nat) (st : ReadState σ) :
    DebugPortRead.loop T Q BufferSize (fuel + 1) st =
      if !(DebugPortRead.body T Q BufferSize st).2 &&
          (DebugPortRead.body T Q BufferSize st).1.LocalBufferSize != 0 &&
          decide ((DebugPortRead.body T Q BufferSize st).1.Timeout > 0) then
        DebugPortRead.loop T Q BufferSize fuel (DebugPortRead.body T Q BufferSize st).1
      else some (DebugPortRead.body T Q BufferSize st).1 := rfl

/-- The loop is left exactly when the body took its `break`, or the buffer is full, or the
budget is used up. -/
theorem DebugPortRead.continue_iff (st : ReadState σ) :
    (!(DebugPortRead.body T Q BufferSize st).2 &&
        (DebugPortRead.body T Q BufferSize st).1.LocalBufferSize != 0 &&
        decide ((DebugPortRead.body T Q BufferSize st).1.Timeout > 0)) = true ↔
      hardError (T.Read st.dev st.LocalBufferSize).2.1 = false ∧
      (DebugPortRead.body T Q BufferSize st).1.LocalBufferSize ≠ 0 ∧
      0 < (DebugPortRead.body T Q BufferSize st).1.Timeout := by
  rw [DebugPortRead.body_break]
  simp [and_assoc]

/-- Induction over the iterations of a run of the loop that returns. -/
theorem DebugPortRead.loop_induction (P : ReadState σ → ReadState σ → Prop)
    (last : ∀ st, P st (DebugPortRead.body T Q BufferSize st).1)
    (step : ∀ st r, hardError (T.Read st.dev st.LocalBufferSize).2.1 = false →
      (DebugPortRead.body T Q BufferSize st).1.LocalBufferSize ≠ 0 →
      0 < (DebugPortRead.body T Q BufferSize st).1.Timeout →
      P (DebugPortRead.body T Q BufferSize st).1 r → P st r) :
    ∀ fuel st r, DebugPortRead.loop T Q BufferSize fuel st = some r → P st r := by
  intro fuel
  induction fuel with
  | zero => intro st r h; simp [DebugPortRead.loop] at h
  | succ fuel ih =>
    intro st r h
    rw [DebugPortRead.loop_succ] at h
    split at h
    · next hc =>
      obtain ⟨h1, h2, h3⟩ := (DebugPortRead.continue_iff T Q BufferSize st).1 hc
      exact step st r h1 h2 h3 (ih _ r h)
    · cases h
      exact last st

/-- The calls of a run that returns: reads only, no error other than a timeout before the
last one, the returned status is the status of the last one, and the reported count is the
sum of the bytes moved by the reads that did not end in such an error. -/
theorem DebugPortRead.loop_trace (fuel : Nat) (st r : ReadState σ)
    (h : DebugPortRead.loop T Q BufferSize fuel st = some r) :
    ∃ es n a, r.log = st.log ++ es ++ [Call.Read n r.Status a] ∧
      (∀ c ∈ es, c.isRead = true ∧ hardError c.Status = false) ∧
      r.BufferPtr = st.BufferPtr + transferred es + (if hardError r.Status then 0 else a) := by
  revert fuel st r
  apply DebugPortRead.loop_induction
  · intro st
    refine ⟨[], st.LocalBufferSize, (T.Read st.dev st.LocalBufferSize).2.2, ?_, ?_, ?_⟩
    · rw [DebugPortRead.body_log, DebugPortRead.body_Status]; simp
    · simp
    · rw [DebugPortRead.body_BufferPtr, DebugPortRead.body_Status]; simp [transferred]
  · intro st r h1 _ _ ih
    obtain ⟨es, n, a, hlog, hes, hptr⟩ := ih
    refine ⟨Call.Read st.LocalBufferSize (T.Read st.dev st.LocalBufferSize).2.1
      (T.Read st.dev st.LocalBufferSize).2.2 :: es, n, a, ?_, ?_, ?_⟩
    · rw [hlog, DebugPortRead.body_log]; simp
    · intro c hc
      rcases List.mem_cons.1 hc with rfl | hc
      · exact ⟨rfl, h1⟩
      · exact hes c hc
    · rw [hptr, DebugPortRead.body_BufferPtr, h1]
      simp [transferred, Call.Count]
      omega

/-- On a transport whose reads report at most the number of bytes they were asked for, the
reported count never exceeds the requested size. -/
theorem DebugPortRead.loop_BufferPtr_le (hbound : ∀ d n, (T.Read d n).2.2 ≤ n) (fuel : Nat)
    (st r : ReadState σ) (h : DebugPortRead.loop T Q BufferSize fuel st = some r) :
    st.BufferPtr + st.LocalBufferSize ≤ BufferSize → r.BufferPtr ≤ BufferSize := by
  revert fuel st r
  apply DebugPortRead.loop_induction
  · intro st hst
    rw [DebugPortRead.body_BufferPtr]
    have := hbound st.dev st.LocalBufferSize
    split <;> omega
  · intro st r h1 _ _ ih hst
    apply ih
    have := hbound st.dev st.LocalBufferSize
    rw [DebugPortRead.body_BufferPtr, DebugPortRead.body_LocalBufferSize, h1]
    simp only [Bool.false_eq_true, if_false]
    rw [subN_of_le (by omega)]
    omega

theorem timeouts_cons (c : Call) (es : List Call) :
    timeouts (c :: es) = (if c.Status = EFI_TIMEOUT then 1 else 0) + timeouts es := by
  unfold timeouts
  by_cases hc : c.Status = EFI_TIMEOUT
  · simp [List.filter_cons, hc]; omega
  · simp [List.filter_cons, hc]

theorem timeouts_append (l1 l2 : List Call) : timeouts (l1 ++ l2) = timeouts l1 + timeouts l2 := by
  simp [timeouts]

/-- The budget of a run that returns: it does not increase, and the timeouts that were
followed by another read each took a whole quantum from it and left it positive. -/
theorem DebugPortRead.loop_budget (fuel : Nat) (st r : ReadState σ)
    (h : DebugPortRead.loop T Q BufferSize fuel st = some r) :
    st.Timeout < 4294967296 →
      r.Timeout ≤ st.Timeout ∧
      ∃ es e, r.log = st.log ++ es ++ [e] ∧ (timeouts es = 0 ∨ timeouts es * Q < st.Timeout) := by
  revert fuel st r
  apply DebugPortRead.loop_induction
  · intro st hst
    refine ⟨?_, [], Call.Read st.LocalBufferSize (T.Read st.dev st.LocalBufferSize).2.1
      (T.Read st.dev st.LocalBufferSize).2.2, ?_, Or.inl rfl⟩
    · rw [DebugPortRead.body_Timeout]
      split
      · split
        · rw [sub32_eq hst (by omega)]; omega
        · omega
      · omega
    · rw [DebugPortRead.body_log]; simp
  · intro st r _ _ h3 ih hst
    rw [DebugPortRead.body_Timeout] at h3 ih
    rw [DebugPortRead.body_log] at ih
    generalize (T.Read st.dev st.LocalBufferSize).2.2 = a at ih
    generalize hs : (T.Read st.dev st.LocalBufferSize).2.1 = s at h3 ih
    by_cases hs : s = EFI_TIMEOUT
    · simp only [hs, if_true] at h3 ih
      by_cases hq : st.Timeout > Q
      · simp only [hq, if_true] at h3 ih
        rw [sub32_eq hst hq] at h3 ih
        have h4 : st.Timeout - Q < 4294967296 := by omega
        obtain ⟨hle, es, e, hlog, hes⟩ := ih h4
        refine ⟨?_, Call.Read st.LocalBufferSize EFI_TIMEOUT a :: es, e, ?_, Or.inr ?_⟩
        · exact le_trans hle (Nat.sub_le _ _)
        · rw [hlog]; simp
        · rw [timeouts_cons]
          simp only [Call.Status, if_true, Nat.add_mul, Nat.one_mul]
          rcases hes with hes | hes
          · rw [hes]; omega
          · omega
      · simp [hq] at h3
    · simp only [hs, if_false] at h3 ih
      obtain ⟨hle, es, e, hlog, hes⟩ := ih hst
      refine ⟨hle, Call.Read st.LocalBufferSize s a :: es, e, ?_, ?_⟩
      · rw [hlog]; simp
      · rw [timeouts_cons]
        simpa [Call.Status, hs] using hes

end ReadLoop

/-! ## DebugPortRead: the reported count, the budget, the errors -/

/-- The reads of `scriptSerialIo` report at most the number of bytes they were asked
for. -/
theorem scriptSerialIo_Read_le (d : List (EFI_STATUS × Nat)) (n : Nat) :
    (scriptSerialIo.Read d n).2.2 ≤ n := by
  cases d with
  | nil => exact Nat.zero_le n
  | cons e rest => exact Nat.min_le_right _ _

/-- C1, as stated, fails: the loop adds whatever the transport leaves in `LocalBufferSize`.
When a read for 4 bytes succeeds and leaves 6 there, `DebugPortRead` of 4 bytes with a
budget of 0 returns a count of 6; with a budget of 30 the next read is asked for
`4 - 6 = 2 ^ 64 - 2` bytes (the `UINTN` subtraction wraps), and when that one fails the
count returned is 6 again. -/
theorem DebugPortRead_count_le_requested_counterexample :
    (∃ r, DebugPortRead rawSerialIo 10 1 [(EFI_SUCCESS, 6)] 0 4 = some r ∧
      r.log = [Call.Read 4 EFI_SUCCESS 6] ∧ r.Status = EFI_SUCCESS ∧ r.BufferPtr = 6 ∧
      ¬ r.BufferPtr ≤ 4) ∧
    (∃ r, DebugPortRead rawSerialIo 10 2 [(EFI_SUCCESS, 6), (EFI_DEVICE_ERROR, 0)] 30 4 = some r ∧
      r.log = [Call.Read 4 EFI_SUCCESS 6, Call.Read 18446744073709551614 EFI_DEVICE_ERROR 0] ∧
      r.Status = EFI_DEVICE_ERROR ∧ r.BufferPtr = 6 ∧ ¬ r.BufferPtr ≤ 4) :=
  ⟨⟨_, rfl, rfl, rfl, rfl, by decide⟩, ⟨_, rfl, rfl, rfl, rfl, by decide⟩⟩

/-- C1, amended: on a transport whose reads leave in `*BufferSize` at most the size they
were given, the byte count `DebugPortRead` stores to `*BufferSize` on return never exceeds
the requested size; and on every transport, when the returned status is an error other than
a timeout (the loop was left through `break`) the count is at most the number of bytes moved
by the reads made before the failing one. -/
theorem DebugPortRead_count_le_requested {σ : Type} (T : EFI_SERIAL_IO_PROTOCOL σ)
    (Q fuel : Nat) (dev : σ) (Timeout BufferSize : Nat) (r : ReadState σ)
    (h : DebugPortRead T Q fuel dev Timeout BufferSize = some r) :
    ((∀ d n, (T.Read d n).2.2 ≤ n) → r.BufferPtr ≤ BufferSize) ∧
      (hardError r.Status = true → r.BufferPtr ≤ transferred r.log.dropLast) := by
  unfold DebugPortRead at h
  refine ⟨fun hbound =>
    DebugPortRead.loop_BufferPtr_le T Q BufferSize hbound fuel _ r h (by simp), ?_⟩
  intro herr
  obtain ⟨es, n, a, hlog, -, hptr⟩ := DebugPortRead.loop_trace T Q BufferSize fuel _ r h
  rw [hlog, hptr, herr]
  simp

/-- C1 on a transport that delivers 2 bytes, times out with 1 more byte and then fails: of
the 8 bytes requested, 3 are reported. -/
theorem DebugPortRead_count_le_requested_witness :
    ∃ r, DebugPortRead scriptSerialIo 10 5
        [(EFI_SUCCESS, 2), (EFI_TIMEOUT, 1), (EFI_DEVICE_ERROR, 4)] 30 8 = some r ∧
      r.Status = EFI_DEVICE_ERROR ∧ r.BufferPtr = 3 ∧ r.log.length = 3 ∧
      r.BufferPtr ≤ 8 ∧ (hardError r.Status = true → r.BufferPtr ≤ transferred r.log.dropLast) :=
  ⟨_, rfl, rfl, rfl, rfl,
    (DebugPortRead_count_le_requested scriptSerialIo 10 5
      [(EFI_SUCCESS, 2), (EFI_TIMEOUT, 1), (EFI_DEVICE_ERROR, 4)] 30 8 _ rfl).1
      scriptSerialIo_Read_le,
    (DebugPortRead_count_le_requested scriptSerialIo 10 5
      [(EFI_SUCCESS, 2), (EFI_TIMEOUT, 1), (EFI_DEVICE_ERROR, 4)] 30 8 _ rfl).2⟩

/-- C2: with `Q = DEBUGPORT_UART_DEFAULT_TIMEOUT > 0`, an iteration of the loop of
`DebugPortRead` whose read reports `EFI_TIMEOUT` replaces a budget `t` (a `UINT32`) by
`t - Q` when `t > Q` and by `0` otherwise, any other iteration leaves it unchanged, so the
budget never increases and the `UINT32` subtraction never wraps; and in a call with budget
`Timeout` the number of reads that reported a timeout and were followed by another read is at
most `⌈Timeout / Q⌉`, as is, for a positive budget, the number of all reads that reported a
timeout. -/
theorem DebugPortRead_timeout_budget {σ : Type} (T : EFI_SERIAL_IO_PROTOCOL σ)
    (Q BufferSize : Nat) (hQ : 0 < Q) :
    (∀ st : ReadState σ, st.Timeout < 4294967296 →
      ((T.Read st.dev st.LocalBufferSize).2.1 = EFI_TIMEOUT →
        (DebugPortRead.body T Q BufferSize st).1.Timeout =
          if st.Timeout > Q then st.Timeout - Q else 0) ∧
      ((T.Read st.dev st.LocalBufferSize).2.1 ≠ EFI_TIMEOUT →
        (DebugPortRead.body T Q BufferSize st).1.Timeout = st.Timeout) ∧
      (DebugPortRead.body T Q BufferSize st).1.Timeout ≤ st.Timeout) ∧
    (∀ (fuel : Nat) (dev : σ) (Timeout : Nat) (r : ReadState σ), Timeout < 4294967296 →
      DebugPortRead T Q fuel dev Timeout BufferSize = some r →
        r.Timeout ≤ Timeout ∧
        timeouts r.log.dropLast ≤ (Timeout + Q - 1) / Q ∧
        (0 < Timeout → timeouts r.log ≤ (Timeout + Q - 1) / Q)) := by
  constructor
  · intro st hst
    rw [DebugPortRead.body_Timeout]
    refine ⟨?_, ?_, ?_⟩
    · intro hs
      rw [if_pos hs]
      split
      · next hq => exact sub32_eq hst hq
      · rfl
    · intro hs
      rw [if_neg hs]
    · split
      · split
        · next hq => rw [sub32_eq hst hq]; omega
        · omega
      · omega
  · intro fuel dev Timeout r hT h
    unfold DebugPortRead at h
    obtain ⟨hle, es, e, hlog, hes⟩ := DebugPortRead.loop_budget T Q BufferSize fuel _ r h hT
    simp only [List.nil_append] at hlog
    dsimp only at hle hes
    refine ⟨hle, ?_, ?_⟩
    · rw [hlog, List.dropLast_concat, Nat.le_div_iff_mul_le hQ]
      rcases hes with hes | hes
      · rw [hes]; omega
      · omega
    · intro hpos
      rw [hlog, timeouts_append, Nat.le_div_iff_mul_le hQ, Nat.add_mul]
      have : timeouts [e] ≤ 1 := by
        unfold timeouts
        exact le_trans (List.length_filter_le _ _) (by simp)
      have : timeouts [e] * Q ≤ Q := by
        calc timeouts [e] * Q ≤ 1 * Q := Nat.mul_le_mul_right Q this
          _ = Q := Nat.one_mul Q
      rcases hes with hes | hes
      · rw [hes]; omega
      · omega

/-- C2 on a transport that times out twice and then delivers the data, with budget 30 and
quantum 10. -/
theorem DebugPortRead_timeout_budget_witness :
    ∃ r, DebugPortRead scriptSerialIo 10 5
        [(EFI_TIMEOUT, 0), (EFI_TIMEOUT, 1), (EFI_SUCCESS, 3)] 30 4 = some r ∧
      r.Timeout = 10 ∧ timeouts r.log = 2 ∧
      r.Timeout ≤ 30 ∧ timeouts r.log.dropLast ≤ (30 + 10 - 1) / 10 ∧
      (0 < 30 → timeouts r.log ≤ (30 + 10 - 1) / 10) :=
  ⟨_, rfl, rfl, rfl,
    (DebugPortRead_timeout_budget scriptSerialIo 10 4 (by decide)).2 5
      [(EFI_TIMEOUT, 0), (EFI_TIMEOUT, 1), (EFI_SUCCESS, 3)] 30 _ (by decide) rfl⟩

/-- On a transport whose reads all time out with no data, the loop makes `⌈t / Q⌉` reads
from a state with budget `t > 0` and an empty buffer of positive size. -/
theorem DebugPortRead.loop_silent {σ : Type} (T : EFI_SERIAL_IO_PROTOCOL σ) (Q BufferSize : Nat)
    (hN : 0 < BufferSize) (hQ : 0 < Q)
    (hsilent : ∀ d n, (T.Read d n).2.1 = EFI_TIMEOUT ∧ (T.Read d n).2.2 = 0) :
    ∀ (fuel : Nat) (st : ReadState σ), 0 < st.Timeout → st.Timeout < 4294967296 →
      st.BufferPtr = 0 → st.LocalBufferSize = BufferSize → (st.Timeout + Q - 1) / Q ≤ fuel →
      ∃ r, DebugPortRead.loop T Q BufferSize fuel st = some r ∧
        r.log = st.log ++
          List.replicate ((st.Timeout + Q - 1) / Q) (Call.Read BufferSize EFI_TIMEOUT 0) ∧
        r.BufferPtr = 0 ∧ r.Status = EFI_TIMEOUT := by
  intro fuel
  induction fuel with
  | zero =>
    intro st h0 _ _ _ hf
    exfalso
    have : 1 ≤ (st.Timeout + Q - 1) / Q := by
      rw [Nat.le_div_iff_mul_le hQ]; omega
    omega
  | succ fuel ih =>
    intro st h0 h32 hptr hloc hf
    obtain ⟨hs, ha⟩ := hsilent st.dev st.LocalBufferSize
    have hT := DebugPortRead.body_Timeout T Q BufferSize st
    have hP := DebugPortRead.body_BufferPtr T Q BufferSize st
    have hL := DebugPortRead.body_LocalBufferSize T Q BufferSize st
    have hS := DebugPortRead.body_Status T Q BufferSize st
    have hlog := DebugPortRead.body_log T Q BufferSize st
    rw [hs, ha] at hlog
    rw [hs] at hS
    rw [hs, hardError_TIMEOUT, ha, hptr] at hP hL
    simp only [if_false, Bool.false_eq_true, Nat.add_zero, subN_zero] at hP hL
    rw [hs, if_pos rfl] at hT
    rw [DebugPortRead.loop_succ]
    by_cases hq : st.Timeout > Q
    · rw [if_pos hq, sub32_eq h32 hq] at hT
      have hdiv : (st.Timeout + Q - 1) / Q = (st.Timeout - Q + Q - 1) / Q + 1 := by
        rw [← Nat.add_div_right _ hQ]
        congr 1
        omega
      have hc : (!(DebugPortRead.body T Q BufferSize st).2 &&
          (DebugPortRead.body T Q BufferSize st).1.LocalBufferSize != 0 &&
          decide ((DebugPortRead.body T Q BufferSize st).1.Timeout > 0)) = true := by
        rw [DebugPortRead.continue_iff, hs, hL, hT]
        exact ⟨hardError_TIMEOUT, by omega, by omega⟩
      rw [if_pos hc]
      obtain ⟨r, hr, hrlog, hrp, hrs⟩ := ih (DebugPortRead.body T Q BufferSize st).1
        (by rw [hT]; omega) (by rw [hT]; omega) hP hL (by rw [hT]; omega)
      refine ⟨r, hr, ?_, hrp, hrs⟩
      rw [hrlog, hlog, hT, hdiv, hloc, List.replicate_succ]
      simp
    · rw [if_neg hq] at hT
      have hdiv : (st.Timeout + Q - 1) / Q = 1 :=
        Nat.div_eq_of_lt_le (by omega) (by omega)
      have hc : ¬ (!(DebugPortRead.body T Q BufferSize st).2 &&
          (DebugPortRead.body T Q BufferSize st).1.LocalBufferSize != 0 &&
          decide ((DebugPortRead.body T Q BufferSize st).1.Timeout > 0)) = true := by
        rw [DebugPortRead.continue_iff, hT]
        omega
      rw [if_neg hc]
      refine ⟨_, rfl, ?_, hP, hS⟩
      rw [hlog, hdiv, hloc]
      rfl

/-- C3: for a requested size `N > 0`, a budget `T > 0` and a quantum `Q > 0`, when every read
of the transport reports `EFI_TIMEOUT` and moves no byte, `DebugPortRead` makes exactly
`⌈T / Q⌉` reads, each for `N` bytes, and returns `EFI_TIMEOUT` with a count of 0. -/
theorem DebugPortRead_all_timeouts {σ : Type} (T : EFI_SERIAL_IO_PROTOCOL σ) (Q : Nat) (dev : σ)
    (Timeout BufferSize : Nat) (hN : 0 < BufferSize) (hT : 0 < Timeout)
    (hT32 : Timeout < 4294967296) (hQ : 0 < Q)
    (hsilent : ∀ d n, (T.Read d n).2.1 = EFI_TIMEOUT ∧ (T.Read d n).2.2 = 0)
    (fuel : Nat) (hfuel : (Timeout + Q - 1) / Q ≤ fuel) :
    ∃ r, DebugPortRead T Q fuel dev Timeout BufferSize = some r ∧
      r.log = List.replicate ((Timeout + Q - 1) / Q) (Call.Read BufferSize EFI_TIMEOUT 0) ∧
      r.BufferPtr = 0 ∧ r.Status = EFI_TIMEOUT := by
  obtain ⟨r, hr, hlog, hp, hs⟩ := DebugPortRead.loop_silent T Q BufferSize hN hQ hsilent fuel
    { dev := dev, Timeout := Timeout, LocalBufferSize := BufferSize, BufferPtr := 0,
      Status := EFI_SUCCESS, log := [] } hT hT32 rfl rfl hfuel
  exact ⟨r, hr, by simpa using hlog, hp, hs⟩

/-- C3 with budget 30 and quantum 10: exactly 3 reads, 0 bytes, `EFI_TIMEOUT`. -/
theorem DebugPortRead_all_timeouts_witness :
    ∃ r, DebugPortRead (constSerialIo EFI_TIMEOUT false 0) 10 3 () 30 5 = some r ∧
      r.log = List.replicate 3 (Call.Read 5 EFI_TIMEOUT 0) ∧
      r.BufferPtr = 0 ∧ r.Status = EFI_TIMEOUT :=
  DebugPortRead_all_timeouts (constSerialIo EFI_TIMEOUT false 0) 10 () 30 5 (by decide)
    (by decide) (by decide) (by decide) (fun _ _ => ⟨rfl, rfl⟩) 3 (by decide)

section WriteLoop

variable {σ : Type} (T : EFI_SERIAL_IO_PROTOCOL σ) (BufferSize : Nat)

theorem DebugPortWrite.cond_iff (st : WriteState σ) :
    DebugPortWrite.cond BufferSize st = true ↔
      st.Position < BufferSize ∧ EFI_ERROR st.Status = false := by
  simp [DebugPortWrite.cond]

theorem DebugPortWrite.write_loop_exit (fuel : Nat) (st : WriteState σ)
    (h : DebugPortWrite.cond BufferSize st = false) :
    DebugPortWrite.loop T BufferSize fuel st = some st := by
  cases fuel <;> simp [DebugPortWrite.loop, h]

theorem DebugPortWrite.write_loop_succ (fuel : Nat) (st : WriteState σ)
    (h : DebugPortWrite.cond BufferSize st = true) :
    DebugPortWrite.loop T BufferSize (fuel + 1) st =
      DebugPortWrite.loop T BufferSize fuel (DebugPortWrite.body T BufferSize st) := by
  simp [DebugPortWrite.loop, h]

/-- Induction over the iterations of a run of the loop that returns. -/
theorem DebugPortWrite.write_loop_induction (P : WriteState σ → WriteState σ → Prop)
    (last : ∀ st, DebugPortWrite.cond BufferSize st = false → P st st)
    (step : ∀ st r, DebugPortWrite.cond BufferSize st = true →
      P (DebugPortWrite.body T BufferSize st) r → P st r) :
    ∀ fuel st r, DebugPortWrite.loop T BufferSize fuel st = some r → P st r := by
  intro fuel
  induction fuel with
  | zero =>
    intro st r h
    by_cases hc : DebugPortWrite.cond BufferSize st = true
    · simp [DebugPortWrite.loop, hc] at h
    · simp only [Bool.not_eq_true] at hc
      rw [DebugPortWrite.write_loop_exit T BufferSize 0 st hc] at h
      cases h
      exact last st hc
  | succ fuel ih =>
    intro st r h
    by_cases hc : DebugPortWrite.cond BufferSize st = true
    · rw [DebugPortWrite.write_loop_succ T BufferSize fuel st hc] at h
      exact step st r hc (ih _ r h)
    · simp only [Bool.not_eq_true] at hc
      rw [DebugPortWrite.write_loop_exit T BufferSize _ st hc] at h
      cases h
      exact last st hc

/-- The calls of a run that returns: pairs of a control query and a write, no write before
the last one returned an error, the returned status is the status of the last write, and
the reported count is the sum of the bytes written. -/
theorem DebugPortWrite.write_loop_trace (fuel : Nat) (st r : WriteState σ)
    (h : DebugPortWrite.loop T BufferSize fuel st = some r) :
    ∃ es, r.log = st.log ++ es ∧ r.Position = st.Position + transferred es ∧
      queryThenWrite es = true ∧
      ((es = [] ∧ r.Status = st.Status) ∨
        (EFI_ERROR st.Status = false ∧
          ∃ es1 sg cg n off a, es = es1 ++ [Call.GetControl sg cg, Call.Write n off r.Status a] ∧
            ∀ c ∈ es1, c.isWrite = true → EFI_ERROR c.Status = false)) := by
  revert fuel st r
  apply DebugPortWrite.write_loop_induction
  · intro st _
    exact ⟨[], by simp, by simp [transferred], rfl, Or.inl ⟨rfl, rfl⟩⟩
  · intro st r hc ih
    obtain ⟨hpos, hst⟩ := (DebugPortWrite.cond_iff BufferSize st).1 hc
    obtain ⟨es, hlog, hp, hqw, hes⟩ := ih
    refine ⟨[Call.GetControl (T.GetControl st.dev).2.1 (T.GetControl st.dev).2.2,
      Call.Write (if BufferSize - st.Position < 8 then BufferSize - st.Position else st.WriteSize)
        st.Position (DebugPortWrite.body T BufferSize st).Status
        (DebugPortWrite.body T BufferSize st).WriteSize] ++ es, ?_, ?_, ?_, Or.inr ⟨hst, ?_⟩⟩
    · rw [hlog]; simp [DebugPortWrite.body]
    · rw [hp]; simp [DebugPortWrite.body, transferred, Call.Count]; omega
    · simpa [queryThenWrite] using hqw
    · rcases hes with ⟨rfl, hs⟩ | ⟨hs, es1, sg, cg, n, off, a, rfl, hes1⟩
      · exact ⟨[], _, _, _, _, _, by rw [hs]; rfl, by simp⟩
      · refine ⟨[Call.GetControl (T.GetControl st.dev).2.1 (T.GetControl st.dev).2.2,
          Call.Write (if BufferSize - st.Position < 8 then BufferSize - st.Position
            else st.WriteSize) st.Position (DebugPortWrite.body T BufferSize st).Status
            (DebugPortWrite.body T BufferSize st).WriteSize] ++ es1, sg, cg, n, off, a, by simp, ?_⟩
        intro c hmem hw
        simp only [List.cons_append, List.nil_append, List.mem_cons] at hmem
        rcases hmem with rfl | rfl | hmem
        · simp [Call.isWrite] at hw
        · exact hs
        · exact hes1 c hmem hw

end WriteLoop

/-! ## DebugPortWrite: the chunks -/

theorem writesOf_pair (sg cg n off s a : Nat) (es : List Call) :
    writesOf (Call.GetControl sg cg :: Call.Write n off s a :: es) = (off, n) :: writesOf es := rfl

/-- On a transport whose writes all succeed and take the whole chunk, the loop writes the
rest of the buffer in chunks of 8 bytes, the last one shorter when fewer bytes are left. -/
theorem DebugPortWrite.write_loop_full {σ : Type} (T : EFI_SERIAL_IO_PROTOCOL σ) (BufferSize : Nat)
    (hfull : ∀ d n off, EFI_ERROR (T.Write d n off).2.1 = false ∧ (T.Write d n off).2.2 = n) :
    ∀ (fuel : Nat) (st : WriteState σ), st.Position ≤ BufferSize →
      (st.Position < BufferSize → st.WriteSize = 8) → EFI_ERROR st.Status = false →
      (BufferSize - st.Position + 7) / 8 ≤ fuel →
      ∃ r, DebugPortWrite.loop T BufferSize fuel st = some r ∧ r.Position = BufferSize ∧
        EFI_ERROR r.Status = false ∧
        ∃ es, r.log = st.log ++ es ∧ queryThenWrite es = true ∧
          writesOf es = (List.range ((BufferSize - st.Position + 7) / 8)).map fun i =>
            (st.Position + 8 * i, min 8 (BufferSize - st.Position - 8 * i)) := by
  intro fuel
  induction fuel with
  | zero =>
    intro st hle _ hs hf
    have hpos : st.Position = BufferSize := by omega
    refine ⟨st, DebugPortWrite.write_loop_exit T BufferSize 0 st ?_, hpos, hs, [], by simp, rfl, ?_⟩
    · simp [DebugPortWrite.cond, hpos]
    · rw [hpos]; simp [writesOf]
  | succ fuel ih =>
    intro st hle hws hs hf
    by_cases hpos : st.Position = BufferSize
    · refine ⟨st, DebugPortWrite.write_loop_exit T BufferSize _ st ?_, hpos, hs, [], by simp, rfl, ?_⟩
      · simp [DebugPortWrite.cond, hpos]
      · rw [hpos]; simp [writesOf]
    · have hlt : st.Position < BufferSize := by omega
      have hc : DebugPortWrite.cond BufferSize st = true :=
        (DebugPortWrite.cond_iff BufferSize st).2 ⟨hlt, hs⟩
      rw [DebugPortWrite.write_loop_succ T BufferSize fuel st hc]
      obtain ⟨hws1, hwn⟩ := hfull (T.GetControl st.dev).1
        (if BufferSize - st.Position < 8 then BufferSize - st.Position else st.WriteSize)
        st.Position
      have hbP : (DebugPortWrite.body T BufferSize st).Position =
          st.Position + min 8 (BufferSize - st.Position) := by
        simp only [DebugPortWrite.body]
        rw [hwn, hws hlt]
        split <;> omega
      have hbW : (DebugPortWrite.body T BufferSize st).WriteSize =
          min 8 (BufferSize - st.Position) := by
        simp only [DebugPortWrite.body]
        rw [hwn, hws hlt]
        split <;> omega
      have hbS : EFI_ERROR (DebugPortWrite.body T BufferSize st).Status = false := hws1
      have h8 : (if BufferSize - st.Position < 8 then BufferSize - st.Position
          else st.WriteSize) = min 8 (BufferSize - st.Position) := by
        rw [hws hlt]; split <;> omega
      have hbL : (DebugPortWrite.body T BufferSize st).log = st.log ++
          [Call.GetControl (T.GetControl st.dev).2.1 (T.GetControl st.dev).2.2,
            Call.Write (if BufferSize - st.Position < 8 then BufferSize - st.Position
              else st.WriteSize) st.Position
              (DebugPortWrite.body T BufferSize st).Status
              (DebugPortWrite.body T BufferSize st).WriteSize] := rfl
      rw [hbW, h8] at hbL
      obtain ⟨r, hr, hrP, hrS, es, hrlog, hqw, hwr⟩ := ih (DebugPortWrite.body T BufferSize st)
        (by rw [hbP]; omega) (by rw [hbP, hbW]; omega) hbS (by rw [hbP]; omega)
      refine ⟨r, hr, hrP, hrS, _, by rw [hrlog, hbL, List.append_assoc], ?_, ?_⟩
      · simpa [queryThenWrite] using hqw
      · have hk : (BufferSize - st.Position + 7) / 8 =
            (BufferSize - (DebugPortWrite.body T BufferSize st).Position + 7) / 8 + 1 := by
          rw [hbP]; omega
        rw [List.cons_append, List.cons_append, List.nil_append, writesOf_pair, hwr, hk,
          List.range_succ_eq_map, List.map_cons, List.map_map]
        refine congrArg₂ _ (by simp) (List.map_congr_left ?_)
        intro i hi
        rw [List.mem_range] at hi
        simp only [Function.comp, hbP]
        have : min 8 (BufferSize - st.Position) = 8 := by
          rw [hbP] at hi; omega
        rw [this]
        refine Prod.ext (by simp; omega) ?_
        simp only
        congr 1
        omega

theorem chunks_eight (L : Nat) :
    chunks 8 L = (List.range ((L + 7) / 8)).map fun i => (0 + 8 * i, min 8 (L - 0 - 8 * i)) := by
  unfold chunks
  refine List.map_congr_left ?_
  intro i hi
  rw [List.mem_range] at hi
  refine Prod.ext (by simp) ?_
  simp only
  split
  · omega
  · split <;> omega

/-- The status returned by the loop is the one it started with or one returned by a write
of the transport. -/
theorem DebugPortWrite.write_loop_Status {σ : Type} (T : EFI_SERIAL_IO_PROTOCOL σ) (BufferSize : Nat)
    (fuel : Nat) (st r : WriteState σ) (h : DebugPortWrite.loop T BufferSize fuel st = some r) :
    r.Status = st.Status ∨ ∃ d n off, r.Status = (T.Write d n off).2.1 := by
  revert fuel st r
  apply DebugPortWrite.write_loop_induction
  · intro st _; exact Or.inl rfl
  · intro st r _ ih
    rcases ih with ih | ih
    · exact Or.inr ⟨_, _, _, ih⟩
    · exact Or.inr ih

/-- C5, as stated, fails: on a transport whose writes never report an error but take 4 bytes
at a time, a buffer of 10 bytes is written with 3 writes, not `⌈10 / 8⌉ = 2`. -/
theorem DebugPortWrite_chunks_counterexample :
    ∃ r, DebugPortWrite scriptSerialIo 3
        [(EFI_SUCCESS, 4), (EFI_SUCCESS, 4), (EFI_SUCCESS, 4)] 0 10 = some r ∧
      (∀ c ∈ r.log, EFI_ERROR c.Status = false) ∧
      r.Status = EFI_SUCCESS ∧ r.Position = 10 ∧
      writesOf r.log = [(0, 8), (4, 6), (8, 2)] ∧
      (writesOf r.log).length ≠ (10 + 7) / 8 :=
  ⟨_, rfl, by decide, rfl, rfl, rfl, by decide⟩

/-- C5, amended: when every write of the transport reports no error and takes the whole
chunk it is given, `DebugPortWrite` of `L` bytes returns with `*BufferSize = L` and a status
that is not an error (`EFI_SUCCESS` when the writes return `EFI_SUCCESS`), after exactly
`⌈L / 8⌉` writes, each preceded by one control query: chunks of 8 bytes at the offsets
0, 8, 16, ..., the last one of `L mod 8` bytes, or 8 when `L` is a multiple of 8. -/
theorem DebugPortWrite_chunks {σ : Type} (T : EFI_SERIAL_IO_PROTOCOL σ) (dev : σ)
    (Timeout L : Nat)
    (hfull : ∀ d n off, EFI_ERROR (T.Write d n off).2.1 = false ∧ (T.Write d n off).2.2 = n)
    (fuel : Nat) (hfuel : (L + 7) / 8 ≤ fuel) :
    ∃ r, DebugPortWrite T fuel dev Timeout L = some r ∧ r.Position = L ∧
      EFI_ERROR r.Status = false ∧
      ((∀ d n off, (T.Write d n off).2.1 = EFI_SUCCESS) → r.Status = EFI_SUCCESS) ∧
      queryThenWrite r.log = true ∧ writesOf r.log = chunks 8 L ∧
      (writesOf r.log).length = (L + 7) / 8 := by
  obtain ⟨r, hr, hP, hS, es, hlog, hqw, hw⟩ := DebugPortWrite.write_loop_full T L hfull fuel
    { dev := dev, Position := 0, WriteSize := 8, Status := EFI_SUCCESS, log := [] }
    (Nat.zero_le _) (fun _ => rfl) rfl (by simpa using hfuel)
  simp only [List.nil_append] at hlog
  have hw2 : writesOf r.log = chunks 8 L := by
    rw [hlog, hw, chunks_eight]
    rfl
  refine ⟨r, hr, hP, hS, ?_, by rw [hlog]; exact hqw, hw2, ?_⟩
  · intro hok
    rcases DebugPortWrite.write_loop_Status T L fuel _ r hr with h | ⟨d, n, off, h⟩
    · exact h
    · rw [h]; exact hok d n off
  · rw [hw2]; simp [chunks]

/-- C5 for a buffer of 10 bytes: 2 writes, of 8 bytes at offset 0 and of 2 bytes at
offset 8. -/
theorem DebugPortWrite_chunks_witness :
    ∃ r, DebugPortWrite (constSerialIo EFI_SUCCESS true 0) 2 () 0 10 = some r ∧ r.Position = 10 ∧
      EFI_ERROR r.Status = false ∧
      ((∀ d n off, ((constSerialIo EFI_SUCCESS true 0).Write d n off).2.1 = EFI_SUCCESS) →
        r.Status = EFI_SUCCESS) ∧
      queryThenWrite r.log = true ∧ writesOf r.log = chunks 8 10 ∧
      (writesOf r.log).length = (10 + 7) / 8 :=
  DebugPortWrite_chunks (constSerialIo EFI_SUCCESS true 0) () 0 10
    (fun _ n _ => ⟨rfl, by simp [constSerialIo]⟩) 2 (by decide)

/-- The chunks of 10 bytes are 8 bytes at offset 0 and 2 bytes at offset 8; there is no chunk
of 0 bytes. -/
theorem chunks_examples : chunks 8 10 = [(0, 8), (8, 2)] ∧ chunks 8 0 = [] ∧
    chunks 8 16 = [(0, 8), (8, 8)] := by
  decide

/-! ## DebugPortWrite: errors, and what the result depends on -/

/-- C7, as stated, fails: when the control query fails with `EFI_UNSUPPORTED`, `DebugPortPoll`
returns `EFI_UNSUPPORTED`, which is none of `EFI_SUCCESS`, `EFI_NOT_READY` and
`EFI_DEVICE_ERROR`; and when it fails with `EFI_NOT_READY`, `DebugPortPoll` returns
`EFI_NOT_READY` although the query did not succeed. -/
theorem DebugPortPoll_status_counterexample :
    EFI_ERROR ((controlSerialIo EFI_UNSUPPORTED 0).GetControl ()).2.1 = true ∧
      (DebugPortPoll (controlSerialIo EFI_UNSUPPORTED 0) ()).2.1 = EFI_UNSUPPORTED ∧
      (DebugPortPoll (controlSerialIo EFI_UNSUPPORTED 0) ()).2.1 ≠ EFI_DEVICE_ERROR ∧
      (DebugPortPoll (controlSerialIo EFI_UNSUPPORTED 0) ()).2.1 ≠ EFI_SUCCESS ∧
      (DebugPortPoll (controlSerialIo EFI_UNSUPPORTED 0) ()).2.1 ≠ EFI_NOT_READY ∧
      EFI_ERROR ((controlSerialIo EFI_NOT_READY 0).GetControl ()).2.1 = true ∧
      (DebugPortPoll (controlSerialIo EFI_NOT_READY 0) ()).2.1 = EFI_NOT_READY := by
  decide

/-- C7, amended: `DebugPortPoll` makes one control query.  It returns `EFI_SUCCESS` if and
only if the query succeeded with the input-buffer-empty bit clear; when the query succeeded
with that bit set it returns `EFI_NOT_READY`; when the query failed it returns the status of
the query unchanged.  So it returns `EFI_DEVICE_ERROR` if and only if the query returned
`EFI_DEVICE_ERROR`, it returns `EFI_NOT_READY` if and only if the query succeeded with the
bit set or itself returned `EFI_NOT_READY`, and its result is always `EFI_SUCCESS`,
`EFI_NOT_READY` or the error status of the query. -/
theorem DebugPortPoll_status {σ : Type} (T : EFI_SERIAL_IO_PROTOCOL σ) (dev : σ) :
    (DebugPortPoll T dev).1 = (T.GetControl dev).1 ∧
    (DebugPortPoll T dev).2.2 = [Call.GetControl (T.GetControl dev).2.1 (T.GetControl dev).2.2] ∧
    ((DebugPortPoll T dev).2.1 = EFI_SUCCESS ↔
      (EFI_ERROR (T.GetControl dev).2.1 = false ∧
        (T.GetControl dev).2.2 &&& EFI_SERIAL_INPUT_BUFFER_EMPTY = 0)) ∧
    (EFI_ERROR (T.GetControl dev).2.1 = false →
      (T.GetControl dev).2.2 &&& EFI_SERIAL_INPUT_BUFFER_EMPTY ≠ 0 →
      (DebugPortPoll T dev).2.1 = EFI_NOT_READY) ∧
    (EFI_ERROR (T.GetControl dev).2.1 = true →
      (DebugPortPoll T dev).2.1 = (T.GetControl dev).2.1) ∧
    ((DebugPortPoll T dev).2.1 = EFI_DEVICE_ERROR ↔ (T.GetControl dev).2.1 = EFI_DEVICE_ERROR) ∧
    ((DebugPortPoll T dev).2.1 = EFI_NOT_READY ↔
      ((EFI_ERROR (T.GetControl dev).2.1 = false ∧
          (T.GetControl dev).2.2 &&& EFI_SERIAL_INPUT_BUFFER_EMPTY ≠ 0) ∨
        (T.GetControl dev).2.1 = EFI_NOT_READY)) ∧
    ((DebugPortPoll T dev).2.1 = EFI_SUCCESS ∨ (DebugPortPoll T dev).2.1 = EFI_NOT_READY ∨
      (EFI_ERROR (T.GetControl dev).2.1 = true ∧
        (DebugPortPoll T dev).2.1 = (T.GetControl dev).2.1)) := by
  simp only [DebugPortPoll, DebugPortPoll.status]
  generalize (T.GetControl dev).2.1 = s
  generalize (T.GetControl dev).2.2 = c
  have hN : EFI_ERROR EFI_NOT_READY = true := by decide
  have hD : EFI_ERROR EFI_DEVICE_ERROR = true := by decide
  have hND : EFI_NOT_READY ≠ EFI_DEVICE_ERROR := by decide
  have hNS : EFI_NOT_READY ≠ EFI_SUCCESS := by decide
  have hSD : EFI_SUCCESS ≠ EFI_DEVICE_ERROR := by decide
  have hS : EFI_ERROR EFI_SUCCESS = false := by decide
  by_cases he : EFI_ERROR s = true
  · have h1 : s ≠ EFI_SUCCESS := fun h => by rw [h, hS] at he; cases he
    simp [he, h1]
  · simp only [Bool.not_eq_true] at he
    have h1 : s ≠ EFI_NOT_READY := fun h => by rw [h, hN] at he; cases he
    have h2 : s ≠ EFI_DEVICE_ERROR := fun h => by rw [h, hD] at he; cases he
    by_cases hc : c &&& EFI_SERIAL_INPUT_BUFFER_EMPTY = 0
    · simp [he, hc, h1, h2, hSD, hNS.symm]
    · simp [he, hc, h1, h2, hND, hNS]

/-- C7 on a control query that succeeds with the input-buffer-empty bit set, and on one that
fails with `EFI_DEVICE_ERROR`. -/
theorem DebugPortPoll_status_witness :
    (DebugPortPoll (controlSerialIo EFI_SUCCESS 0x0100) ()).2.1 = EFI_NOT_READY ∧
      (DebugPortPoll (controlSerialIo EFI_DEVICE_ERROR 0) ()).2.1 =
        ((controlSerialIo EFI_DEVICE_ERROR 0).GetControl ()).2.1 :=
  ⟨(DebugPortPoll_status (controlSerialIo EFI_SUCCESS 0x0100) ()).2.2.2.1 (by decide) (by decide),
    (DebugPortPoll_status (controlSerialIo EFI_DEVICE_ERROR 0) ()).2.2.2.2.1 (by decide)⟩

/-! ## DebugPortReset -/

/-- With a budget of 0, `DebugPortRead` makes exactly one read of the transport. -/
theorem DebugPortRead_zero_budget {σ : Type} (T : EFI_SERIAL_IO_PROTOCOL σ) (Q fuel : Nat)
    (dev : σ) (BufferSize : Nat) :
    ∃ r, DebugPortRead T Q (fuel + 1) dev 0 BufferSize = some r ∧
      r.dev = (T.Read dev BufferSize).1 ∧
      r.log = [Call.Read BufferSize (T.Read dev BufferSize).2.1 (T.Read dev BufferSize).2.2] := by
  unfold DebugPortRead
  rw [DebugPortRead.loop_succ, if_neg]
  · exact ⟨_, rfl, DebugPortRead.body_dev T Q BufferSize _,
      by rw [DebugPortRead.body_log]; rfl⟩
  · rw [DebugPortRead.continue_iff, DebugPortRead.body_Timeout]
    simp

theorem drainLog_cons (s c n s1 a : Nat) (rest : List Call) :
    drainLog (Call.GetControl s c :: Call.Read n s1 a :: rest) =
      (DebugPortPoll.status s c == EFI_SUCCESS && n == 1 && drainLog rest) := by
  simp [drainLog]

theorem drainLog_single (s c : Nat) :
    drainLog [Call.GetControl s c] = (DebugPortPoll.status s c != EFI_SUCCESS) := by
  simp [drainLog]

/-- A drain consists of control queries and reads of 1 byte only. -/
theorem drainLog_only (k : Nat) : ∀ es : List Call, es.length ≤ k → drainLog es = true →
    ∀ c ∈ es, ∃ s n, c = Call.GetControl s n ∨ c = Call.Read 1 s n := by
  induction k with
  | zero =>
    intro es hk h
    have : es = [] := List.length_eq_zero.1 (by omega)
    rw [this] at h
    simp [drainLog] at h
  | succ k ih =>
    intro es hk h c hc
    cases es with
    | nil => simp at hc
    | cons c1 rest =>
      cases c1 <;> try (simp [drainLog] at h)
      next s1 n1 =>
      cases rest with
      | nil =>
        simp only [List.mem_singleton] at hc
        exact ⟨s1, n1, Or.inl hc⟩
      | cons c2 rest1 =>
        cases c2 <;> try (simp [drainLog] at h)
        next n2 s2 a2 =>
        obtain ⟨⟨-, hn⟩, hrest⟩ := h
        simp only [List.mem_cons] at hc
        rcases hc with rfl | rfl | hc
        · exact ⟨s1, n1, Or.inl rfl⟩
        · exact ⟨s2, a2, Or.inr (by rw [hn])⟩
        · exact ih rest1 (by simp at hk; omega) hrest c hc

/-- The calls made by a run of the loop of `DebugPortReset` that returns. -/
theorem DebugPortReset.loop_drain {σ : Type} (T : EFI_SERIAL_IO_PROTOCOL σ) (Q : Nat) :
    ∀ (fuel : Nat) (dev : σ) (log : List Call) (r : σ × EFI_STATUS × List Call),
      DebugPortReset.loop T Q fuel dev log = some r →
      r.2.1 = EFI_SUCCESS ∧ ∃ es, r.2.2 = log ++ es ∧ drainLog es = true := by
  intro fuel
  induction fuel with
  | zero =>
    intro dev log r h
    simp only [DebugPortReset.loop] at h
    split at h
    · cases h
    · next hp =>
      cases h
      refine ⟨rfl, _, rfl, ?_⟩
      simp only [DebugPortPoll] at hp ⊢
      rw [drainLog_single]
      simpa using hp
  | succ fuel ih =>
    intro dev log r h
    simp only [DebugPortReset.loop] at h
    split at h
    · next hp =>
      obtain ⟨rd, hrd, hdev, hlog⟩ := DebugPortRead_zero_budget T Q fuel (DebugPortPoll T dev).1 1
      rw [hrd] at h
      simp only at h
      obtain ⟨hs, es, hes, hd⟩ := ih _ _ r h
      refine ⟨hs, (DebugPortPoll T dev).2.2 ++ rd.log ++ es, by rw [hes]; simp, ?_⟩
      rw [hlog]
      simp only [DebugPortPoll] at hp ⊢
      simp only [List.singleton_append, List.cons_append, List.nil_append]
      rw [drainLog_cons, hd]
      simp [hp]
    · next hp =>
      cases h
      refine ⟨rfl, _, rfl, ?_⟩
      simp only [DebugPortPoll] at hp ⊢
      rw [drainLog_single]
      simpa using hp

/-- C8: whenever `DebugPortReset` returns, it returns `EFI_SUCCESS`, and the transport calls
it made are: for each `DebugPortPoll` that returned `EFI_SUCCESS` (one control query), one
`DebugPortRead` of 1 byte with a budget of 0, which is one read of 1 byte of the transport,
whatever that read returned; and last the control query of the first `DebugPortPoll` that did
not return `EFI_SUCCESS`.  No `Reset` and no `SetAttributes` of the transport is called. -/
theorem DebugPortReset_drains {σ : Type} (T : EFI_SERIAL_IO_PROTOCOL σ) (Q fuel : Nat) (dev : σ)
    (r : σ × EFI_STATUS × List Call) (h : DebugPortReset T Q fuel dev = some r) :
    r.2.1 = EFI_SUCCESS ∧ drainLog r.2.2 = true ∧
      (∀ (fuel1 : Nat) (d : σ), ∃ rd, DebugPortRead T Q (fuel1 + 1) d 0 1 = some rd ∧
        rd.log = [Call.Read 1 (T.Read d 1).2.1 (T.Read d 1).2.2]) ∧
      (∀ c ∈ r.2.2, ∃ s n, c = Call.GetControl s n ∨ c = Call.Read 1 s n) := by
  obtain ⟨hs, es, hes, hd⟩ := DebugPortReset.loop_drain T Q fuel dev [] r h
  simp only [List.nil_append] at hes
  rw [hes]
  refine ⟨hs, hd, ?_, ?_⟩
  · intro fuel1 d
    obtain ⟨rd, hrd, -, hlog⟩ := DebugPortRead_zero_budget T Q fuel1 d 1
    exact ⟨rd, hrd, hlog⟩
  · exact drainLog_only es.length es (Nat.le_refl _) hd

/-- C8 on a transport with three pending answers, the second a failed read and the third a
timed-out read: three polls report data, each followed by one read of 1 byte, the fourth
poll reports no data, and `DebugPortReset` returns `EFI_SUCCESS`. -/
theorem DebugPortReset_drains_witness :
    ∃ r, DebugPortReset scriptSerialIo 10 3
        [(EFI_SUCCESS, 1), (EFI_DEVICE_ERROR, 0), (EFI_TIMEOUT, 0)] = some r ∧
      r.2.2 = [Call.GetControl EFI_SUCCESS 0, Call.Read 1 EFI_SUCCESS 1,
        Call.GetControl EFI_SUCCESS 0, Call.Read 1 EFI_DEVICE_ERROR 0,
        Call.GetControl EFI_SUCCESS 0, Call.Read 1 EFI_TIMEOUT 0,
        Call.GetControl EFI_SUCCESS EFI_SERIAL_INPUT_BUFFER_EMPTY] ∧
      r.2.1 = EFI_SUCCESS ∧ drainLog r.2.2 = true :=
  ⟨_, rfl, rfl,
    (DebugPortReset_drains scriptSerialIo 10 3
      [(EFI_SUCCESS, 1), (EFI_DEVICE_ERROR, 0), (EFI_TIMEOUT, 0)] _ rfl).1,
    (DebugPortReset_drains scriptSerialIo 10 3
      [(EFI_SUCCESS, 1), (EFI_DEVICE_ERROR, 0), (EFI_TIMEOUT, 0)] _ rfl).2.1⟩

/-- In a list of control queries each followed by a write, half of the calls are writes. -/
theorem queryThenWrite_writes (k : Nat) : ∀ es : List Call, es.length ≤ k →
    queryThenWrite es = true → 2 * (es.filter Call.isWrite).length = es.length := by
  induction k with
  | zero =>
    intro es hk _
    have : es = [] := List.length_eq_zero.1 (by omega)
    rw [this]; rfl
  | succ k ih =>
    intro es hk h
    cases es with
    | nil => rfl
    | cons c1 rest =>
      cases c1 <;> try (simp [queryThenWrite] at h)
      cases rest with
      | nil => simp [queryThenWrite] at h
      | cons c2 rest1 =>
        cases c2 <;> try (simp [queryThenWrite] at h)
        have := ih rest1 (by simp at hk; omega) h
        simp [List.filter_cons, Call.isWrite]
        omega

/-! ## Termination of DebugPortRead and DebugPortWrite -/

/-- On a transport whose reads succeed without moving a byte, the loop of `DebugPortRead`
for 1 byte with a budget of 1 never returns. -/
theorem DebugPortRead.loop_idle (Q : Nat) : ∀ (fuel : Nat) (st : ReadState Unit),
    st.BufferPtr = 0 → st.Timeout = 1 →
    DebugPortRead.loop (constSerialIo EFI_SUCCESS false 0) Q 1 fuel st = none := by
  intro fuel
  induction fuel with
  | zero => intro st _ _; rfl
  | succ fuel ih =>
    intro st hp ht
    have hs : ((constSerialIo EFI_SUCCESS false 0).Read st.dev st.LocalBufferSize).2.1 =
      EFI_SUCCESS := rfl
    have ha : ((constSerialIo EFI_SUCCESS false 0).Read st.dev st.LocalBufferSize).2.2 = 0 := rfl
    have hP := DebugPortRead.body_BufferPtr (constSerialIo EFI_SUCCESS false 0) Q 1 st
    have hL := DebugPortRead.body_LocalBufferSize (constSerialIo EFI_SUCCESS false 0) Q 1 st
    have hT := DebugPortRead.body_Timeout (constSerialIo EFI_SUCCESS false 0) Q 1 st
    rw [hs, ha, hp] at hP hL
    rw [hs, ht] at hT
    have hne : (EFI_SUCCESS = EFI_TIMEOUT) = False := by decide
    have hhard : hardError EFI_SUCCESS = false := by decide
    simp only [hhard, hne, if_false, Bool.false_eq_true] at hP hL hT
    rw [DebugPortRead.loop_succ, if_pos]
    · exact ih _ hP hT
    · rw [DebugPortRead.continue_iff, hs, hL, hT]
      exact ⟨hhard, by decide, by decide⟩

/-- On a transport whose writes succeed without taking a byte, the loop of `DebugPortWrite`
for 1 byte never returns. -/
theorem DebugPortWrite.write_loop_idle : ∀ (fuel : Nat) (st : WriteState Unit),
    st.Position = 0 → st.Status = EFI_SUCCESS →
    DebugPortWrite.loop (constSerialIo EFI_SUCCESS false 0) 1 fuel st = none := by
  intro fuel
  induction fuel with
  | zero =>
    intro st hp hs
    simp [DebugPortWrite.loop, DebugPortWrite.cond, hp, hs]
    decide
  | succ fuel ih =>
    intro st hp hs
    have hc : DebugPortWrite.cond 1 st = true := by
      simp [DebugPortWrite.cond, hp, hs]
      decide
    rw [DebugPortWrite.write_loop_succ _ _ _ _ hc]
    apply ih
    · simp [DebugPortWrite.body, hp, constSerialIo]
    · rfl

/-- On a transport whose reads succeed and leave 2 in `*BufferSize` whatever they were asked
for, the loop of `DebugPortRead` for 1 byte with a budget of 1 never returns: the cursor
stays even, so the `UINTN` difference `1 - (BufferPtr - Buffer)` is never 0. -/
theorem DebugPortRead.loop_overrun (Q : Nat) : ∀ (fuel : Nat) (st : ReadState Unit),
    st.BufferPtr % 2 = 0 → st.Timeout = 1 →
    DebugPortRead.loop (fixedSerialIo EFI_SUCCESS 2) Q 1 fuel st = none := by
  intro fuel
  induction fuel with
  | zero => intro st _ _; rfl
  | succ fuel ih =>
    intro st hp ht
    have hs : ((fixedSerialIo EFI_SUCCESS 2).Read st.dev st.LocalBufferSize).2.1 =
      EFI_SUCCESS := rfl
    have ha : ((fixedSerialIo EFI_SUCCESS 2).Read st.dev st.LocalBufferSize).2.2 = 2 := rfl
    have hP := DebugPortRead.body_BufferPtr (fixedSerialIo EFI_SUCCESS 2) Q 1 st
    have hL := DebugPortRead.body_LocalBufferSize (fixedSerialIo EFI_SUCCESS 2) Q 1 st
    have hT := DebugPortRead.body_Timeout (fixedSerialIo EFI_SUCCESS 2) Q 1 st
    rw [hs, ha] at hP hL
    rw [hs, ht] at hT
    have hne : (EFI_SUCCESS = EFI_TIMEOUT) = False := by decide
    have hhard : hardError EFI_SUCCESS = false := by decide
    simp only [hhard, hne, if_false, Bool.false_eq_true] at hP hL hT
    rw [DebugPortRead.loop_succ, if_pos]
    · exact ih _ (by rw [hP]; omega) hT
    · rw [DebugPortRead.continue_iff, hs, hL, hT]
      refine ⟨hhard, ?_, by decide⟩
      unfold subN
      split <;> omega

/-- C9, as stated, fails.  On a transport whose reads and writes report success without
moving a byte, neither `DebugPortRead` of 1 byte with a budget of 1 nor `DebugPortWrite` of
1 byte returns, whatever the number of iterations allowed.  And on a transport whose reads
report success and 2 bytes for a request of 1 byte, `DebugPortRead` of 1 byte with a budget
of 1 does not return either. -/
theorem DebugPortRead_Write_bounded_counterexample :
    (¬ ∃ fuel, (DebugPortRead (constSerialIo EFI_SUCCESS false 0) 1 fuel () 1 1).isSome = true) ∧
      (¬ ∃ fuel, (DebugPortWrite (constSerialIo EFI_SUCCESS false 0) fuel () 0 1).isSome = true) ∧
      (¬ ∃ fuel, (DebugPortRead (fixedSerialIo EFI_SUCCESS 2) 1 fuel () 1 1).isSome = true) := by
  refine ⟨?_, ?_, ?_⟩
  · rintro ⟨fuel, h⟩
    rw [DebugPortRead, DebugPortRead.loop_idle 1 fuel _ rfl rfl] at h
    cases h
  · rintro ⟨fuel, h⟩
    rw [DebugPortWrite, DebugPortWrite.write_loop_idle fuel _ rfl rfl] at h
    cases h
  · rintro ⟨fuel, h⟩
    rw [DebugPortRead, DebugPortRead.loop_overrun 1 fuel _ (by decide) rfl] at h
    cases h

/-- When every read leaves in `*BufferSize` at most the size it was given, and every read
that reports no error moves at least one byte of a non-empty request, the loop of
`DebugPortRead` returns within `LocalBufferSize + Timeout / Q + 1` iterations. -/
theorem DebugPortRead.loop_terminates {σ : Type} (T : EFI_SERIAL_IO_PROTOCOL σ) (Q BufferSize : Nat)
    (hQ : 0 < Q) (hbound : ∀ d n, (T.Read d n).2.2 ≤ n)
    (hread : ∀ d n, 0 < n → EFI_ERROR (T.Read d n).2.1 = false → 0 < (T.Read d n).2.2) :
    ∀ (fuel : Nat) (st : ReadState σ), st.BufferPtr + st.LocalBufferSize = BufferSize →
      st.Timeout < 4294967296 → st.LocalBufferSize + st.Timeout / Q + 1 ≤ fuel →
      ∃ r, DebugPortRead.loop T Q BufferSize fuel st = some r ∧
        r.log.length ≤ st.log.length + (st.LocalBufferSize + st.Timeout / Q + 1) := by
  intro fuel
  induction fuel with
  | zero =>
    intro st _ _ hf
    generalize st.Timeout / Q = k at hf
    omega
  | succ fuel ih =>
    intro st hloc h32 hf
    rw [DebugPortRead.loop_succ]
    have hlog := DebugPortRead.body_log T Q BufferSize st
    split
    · next hc =>
      obtain ⟨hhard, hL, hT⟩ := (DebugPortRead.continue_iff T Q BufferSize st).1 hc
      have hP := DebugPortRead.body_BufferPtr T Q BufferSize st
      have hL2 := DebugPortRead.body_LocalBufferSize T Q BufferSize st
      have hT2 := DebugPortRead.body_Timeout T Q BufferSize st
      have hale := hbound st.dev st.LocalBufferSize
      rw [hhard] at hP hL2
      simp only [if_false, Bool.false_eq_true] at hP hL2
      rw [subN_of_le (by omega)] at hL2
      have hmeasure : (DebugPortRead.body T Q BufferSize st).1.LocalBufferSize +
          (DebugPortRead.body T Q BufferSize st).1.Timeout / Q + 1 + 1 ≤
          st.LocalBufferSize + st.Timeout / Q + 1 ∧
          (DebugPortRead.body T Q BufferSize st).1.Timeout < 4294967296 := by
        by_cases hs : (T.Read st.dev st.LocalBufferSize).2.1 = EFI_TIMEOUT
        · rw [if_pos hs] at hT2
          by_cases hq : st.Timeout > Q
          · rw [if_pos hq, sub32_eq h32 hq] at hT2
            have hdiv : st.Timeout / Q = (st.Timeout - Q) / Q + 1 := by
              rw [← Nat.add_div_right _ hQ]
              congr 1
              omega
            rw [hT2, hL2, hdiv]
            generalize (st.Timeout - Q) / Q = k
            omega
          · rw [if_neg hq] at hT2
            omega
        · rw [if_neg hs] at hT2
          have herr : EFI_ERROR (T.Read st.dev st.LocalBufferSize).2.1 = false := by
            simp only [hardError, Bool.and_eq_false_iff, bne_eq_false_iff_eq] at hhard
            rcases hhard with h | h
            · exact h
            · exact absurd h hs
          have hpos : 0 < st.LocalBufferSize := by
            rw [hL2] at hL
            omega
          have := hread st.dev st.LocalBufferSize hpos herr
          rw [hT2, hL2]
          generalize st.Timeout / Q = k
          omega
      obtain ⟨hm1, hm2⟩ := hmeasure
      have ih1 := ih (DebugPortRead.body T Q BufferSize st).1 (by rw [hL2, hP]; omega) hm2
      generalize (DebugPortRead.body T Q BufferSize st).1.Timeout / Q = k1 at hm1 ih1
      generalize st.Timeout / Q = k at hm1 hf ⊢
      obtain ⟨r, hr, hlen⟩ := ih1 (by omega)
      refine ⟨r, hr, ?_⟩
      rw [hlog, List.length_append, List.length_singleton] at hlen
      omega
    · refine ⟨_, rfl, ?_⟩
      rw [hlog, List.length_append, List.length_singleton]
      generalize st.Timeout / Q = k
      omega

/-- When every write leaves in `*BufferSize` at most the size it was given, and every write
that reports no error takes at least one byte of a non-empty chunk, the loop of
`DebugPortWrite` returns within `BufferSize - Position` iterations, with a count that does
not exceed `BufferSize`. -/
theorem DebugPortWrite.write_loop_terminates {σ : Type} (T : EFI_SERIAL_IO_PROTOCOL σ) (BufferSize : Nat)
    (hbound : ∀ d n off, (T.Write d n off).2.2 ≤ n)
    (hwrite : ∀ d n off, 0 < n → EFI_ERROR (T.Write d n off).2.1 = false →
      0 < (T.Write d n off).2.2) :
    ∀ (fuel : Nat) (st : WriteState σ), (st.Position < BufferSize → 0 < st.WriteSize) →
      st.WriteSize ≤ 8 → st.Position ≤ BufferSize → BufferSize - st.Position ≤ fuel →
      ∃ r, DebugPortWrite.loop T BufferSize fuel st = some r ∧
        r.log.length ≤ st.log.length + 2 * (BufferSize - st.Position) ∧
        r.Position ≤ BufferSize := by
  intro fuel
  induction fuel with
  | zero =>
    intro st _ _ hle hf
    refine ⟨st, DebugPortWrite.write_loop_exit T BufferSize 0 st ?_, by omega, hle⟩
    simp [DebugPortWrite.cond]
    omega
  | succ fuel ih =>
    intro st hws h8 hle hf
    by_cases hc : DebugPortWrite.cond BufferSize st = true
    · obtain ⟨hpos, hst⟩ := (DebugPortWrite.cond_iff BufferSize st).1 hc
      rw [DebugPortWrite.write_loop_succ T BufferSize fuel st hc]
      have hlog : (DebugPortWrite.body T BufferSize st).log.length = st.log.length + 2 := by
        simp [DebugPortWrite.body]
      have hP : (DebugPortWrite.body T BufferSize st).Position =
          st.Position + (DebugPortWrite.body T BufferSize st).WriteSize := rfl
      have hn : 0 < (if BufferSize - st.Position < 8 then BufferSize - st.Position
          else st.WriteSize) := by
        split
        · omega
        · exact hws hpos
      have hn8 : (if BufferSize - st.Position < 8 then BufferSize - st.Position
          else st.WriteSize) ≤ 8 ∧
          (if BufferSize - st.Position < 8 then BufferSize - st.Position
            else st.WriteSize) ≤ BufferSize - st.Position := by
        split <;> omega
      have hwle : (DebugPortWrite.body T BufferSize st).WriteSize ≤
          (if BufferSize - st.Position < 8 then BufferSize - st.Position else st.WriteSize) :=
        hbound _ _ _
      by_cases herr : EFI_ERROR (DebugPortWrite.body T BufferSize st).Status = true
      · refine ⟨_, DebugPortWrite.write_loop_exit T BufferSize fuel _ ?_, ?_, ?_⟩
        · simp [DebugPortWrite.cond, herr]
        · rw [hlog]; omega
        · rw [hP]; omega
      · simp only [Bool.not_eq_true] at herr
        have hw : 0 < (DebugPortWrite.body T BufferSize st).WriteSize :=
          hwrite _ _ _ hn herr
        obtain ⟨r, hr, hlen, hrle⟩ := ih (DebugPortWrite.body T BufferSize st) (fun _ => hw)
          (by omega) (by rw [hP]; omega) (by rw [hP]; omega)
        refine ⟨r, hr, ?_, hrle⟩
        rw [hlog, hP] at hlen
        omega
    · simp only [Bool.not_eq_true] at hc
      exact ⟨st, DebugPortWrite.write_loop_exit T BufferSize _ st hc, by omega, hle⟩

/-- C9, amended: with `Q = DEBUGPORT_UART_DEFAULT_TIMEOUT > 0`, on a transport whose reads
leave in `*BufferSize` at most the size they were given and, when they report no error, move
at least one byte of a non-empty request, `DebugPortRead` of `N` bytes with a (`UINT32`)
budget `T` returns after at most `N + T / Q + 1` reads of the transport; and on a transport
whose writes leave in `*BufferSize` at most the size they were given and, when they report
no error, take at least one byte of a non-empty chunk, `DebugPortWrite` of `L` bytes returns
after at most `L` writes (and `L` control queries), with a count of at most `L`. -/
theorem DebugPortRead_Write_bounded {σ : Type} (T : EFI_SERIAL_IO_PROTOCOL σ) (Q : Nat)
    (hQ : 0 < Q) :
    ((∀ d n, (T.Read d n).2.2 ≤ n) →
      (∀ d n, 0 < n → EFI_ERROR (T.Read d n).2.1 = false → 0 < (T.Read d n).2.2) →
      ∀ (dev : σ) (Timeout N fuel : Nat), Timeout < 4294967296 → N + Timeout / Q + 1 ≤ fuel →
        ∃ r, DebugPortRead T Q fuel dev Timeout N = some r ∧
          r.log.length ≤ N + Timeout / Q + 1) ∧
    ((∀ d n off, (T.Write d n off).2.2 ≤ n) →
      (∀ d n off, 0 < n → EFI_ERROR (T.Write d n off).2.1 = false →
        0 < (T.Write d n off).2.2) →
      ∀ (dev : σ) (Timeout L fuel : Nat), L ≤ fuel →
        ∃ r, DebugPortWrite T fuel dev Timeout L = some r ∧ r.log.length ≤ 2 * L ∧
          (r.log.filter Call.isWrite).length ≤ L ∧ r.Position ≤ L) := by
  constructor
  · intro hbound hread dev Timeout N fuel h32 hf
    obtain ⟨r, hr, hlen⟩ := DebugPortRead.loop_terminates T Q N hQ hbound hread fuel
      { dev := dev, Timeout := Timeout, LocalBufferSize := N, BufferPtr := 0,
        Status := EFI_SUCCESS, log := [] } (Nat.zero_add N) h32 hf
    exact ⟨r, hr, by simpa using hlen⟩
  · intro hbound hwrite dev Timeout L fuel hf
    obtain ⟨r, hr, hlen, hle⟩ := DebugPortWrite.write_loop_terminates T L hbound hwrite fuel
      { dev := dev, Position := 0, WriteSize := 8, Status := EFI_SUCCESS, log := [] }
      (fun _ => Nat.succ_pos 7) (Nat.le_refl 8) (Nat.zero_le L) (by simpa using hf)
    refine ⟨r, hr, by simpa using hlen, ?_, hle⟩
    obtain ⟨es, hlog, -, hqw, -⟩ := DebugPortWrite.write_loop_trace T L fuel _ r hr
    simp only [List.nil_append] at hlog
    have h2 := queryThenWrite_writes es.length es (Nat.le_refl _) hqw
    rw [hlog]
    have : es.length ≤ 2 * L := by rw [← hlog]; simpa using hlen
    omega

/-- C9 on a transport whose reads and writes move the whole buffer: a read of 4 bytes with
budget 30 and quantum 10, and a write of 10 bytes. -/
theorem DebugPortRead_Write_bounded_witness :
    (∃ r, DebugPortRead (constSerialIo EFI_SUCCESS true 0) 10 8 () 30 4 = some r ∧
        r.log.length ≤ 4 + 30 / 10 + 1) ∧
      (∃ r, DebugPortWrite (constSerialIo EFI_SUCCESS true 0) 10 () 0 10 = some r ∧
        r.log.length ≤ 2 * 10 ∧ (r.log.filter Call.isWrite).length ≤ 10 ∧ r.Position ≤ 10) :=
  ⟨(DebugPortRead_Write_bounded (constSerialIo EFI_SUCCESS true 0) 10 (by decide)).1
      (fun _ n => Nat.le_refl n)
      (fun _ n hn _ => by simpa [constSerialIo] using hn) () 30 4 8 (by decide) (by decide),
    (DebugPortRead_Write_bounded (constSerialIo EFI_SUCCESS true 0) 10 (by decide)).2
      (fun _ n _ => Nat.le_refl n)
      (fun _ n _ hn _ => by simpa [constSerialIo] using hn) () 0 10 10 (by decide)⟩

/-! ## DebugPortStart -/

theorem DebugPortStart.close_spec {σ ε : Type} (BS : EFI_BOOT_SERVICES ε)
    (DriverBindingHandle ControllerHandle : EFI_HANDLE) (w : DriverState σ ε) :
    (DebugPortStart.close BS DriverBindingHandle ControllerHandle w).Device = w.Device ∧
      (DebugPortStart.close BS DriverBindingHandle ControllerHandle w).Serial = w.Serial ∧
      (DebugPortStart.close BS DriverBindingHandle ControllerHandle w).log = w.log ++
        [Call.CloseProtocol (BS.CloseProtocol w.Boot (some ControllerHandle)
          ProtocolGuid.SerialIoProtocol DriverBindingHandle (some ControllerHandle)).2] :=
  ⟨rfl, rfl, rfl⟩

/-- The first element of a list that satisfies a test is the one found by `List.find?`. -/
theorem find_first {α : Type} (f : α → Bool) (pre post : List α) (n : α)
    (hpre : ∀ m ∈ pre, f m = false) (hn : f n = true) :
    (pre ++ n :: post).find? f = some n := by
  induction pre with
  | nil => simp [List.find?, hn]
  | cons a pre ih =>
    have ha : f a = false := hpre a (List.mem_cons_self _ _)
    simp only [List.cons_append, List.find?, ha]
    exact ih (fun m hm => hpre m (List.mem_cons_of_mem _ hm))

/-- When the first `GetVariable` reports `EFI_BUFFER_TOO_SMALL`, the buffer is allocated and
the second `GetVariable` fills it with a device path whose first UART node is `n`,
`GetDebugPortVariable` keeps the buffer and records the baud rate, parity, data bits and
stop bits of `n` together with the default FIFO depth and timeout. -/
theorem GetDebugPortVariable_uart_node {σ ε : Type} (S : EFI_DRIVER_SERVICES ε)
    (F : UartNodeFormat) (D : SerialAttributes) (w : DriverState σ ε) (e0 e2 e3 : ε)
    (DataSize DataSize3 : Nat) (d0 : DevicePath) (s3 : EFI_STATUS)
    (pre post : List DevicePathNode) (n : DevicePathNode)
    (hfirst : S.GetVariable w.Boot 0 = (e0, EFI_BUFFER_TOO_SMALL, DataSize, d0))
    (halloc : S.AllocatePool
      (if w.Device.DebugPortVariable.isSome then S.FreePool e0 w.Device.DebugPortVariable else e0)
      DataSize = (e2, true))
    (hsecond : S.GetVariable e2 DataSize = (e3, s3, DataSize3, pre ++ n :: post))
    (hpre : ∀ m ∈ pre, F.EfiIsUartDevicePath m = false) (hn : F.EfiIsUartDevicePath n = true) :
    GetDebugPortVariable S F D w =
      { w with
        Boot := e3
        Device :=
          { w.Device with
            DebugPortVariable := some (pre ++ n :: post)
            BaudRate := (F.Fields n).BaudRate
            ReceiveFifoDepth := D.ReceiveFifoDepth
            Timeout := D.Timeout
            Parity := (F.Fields n).Parity
            DataBits := (F.Fields n).DataBits
            StopBits := (F.Fields n).StopBits } } := by
  unfold GetDebugPortVariable GetDebugPortVariable.fetch
  simp only [hfirst, if_true, halloc, hsecond]
  unfold GetDebugPortVariable.parse
  simp only [find_first _ pre post n hpre hn]

/-- In every other case `GetDebugPortVariable` leaves the six fields of the configuration as
they are: when the first `GetVariable` returns another status than `EFI_BUFFER_TOO_SMALL`
(then the whole device record is left as it is), when the allocation fails, and when the
device path read has no UART node. -/
theorem GetDebugPortVariable_no_node {σ ε : Type} (S : EFI_DRIVER_SERVICES ε)
    (F : UartNodeFormat) (D : SerialAttributes) (w : DriverState σ ε) :
    ((S.GetVariable w.Boot 0).2.1 ≠ EFI_BUFFER_TOO_SMALL →
      (GetDebugPortVariable S F D w).Device = w.Device) ∧
    (∀ (e0 e2 : ε) (DataSize : Nat) (d0 : DevicePath),
      S.GetVariable w.Boot 0 = (e0, EFI_BUFFER_TOO_SMALL, DataSize, d0) →
      S.AllocatePool
        (if w.Device.DebugPortVariable.isSome then S.FreePool e0 w.Device.DebugPortVariable
          else e0) DataSize = (e2, false) →
      (GetDebugPortVariable S F D w).Device = { w.Device with DebugPortVariable := none }) ∧
    (∀ (e0 e2 e3 : ε) (DataSize DataSize3 : Nat) (d0 v : DevicePath) (s3 : EFI_STATUS),
      S.GetVariable w.Boot 0 = (e0, EFI_BUFFER_TOO_SMALL, DataSize, d0) →
      S.AllocatePool
        (if w.Device.DebugPortVariable.isSome then S.FreePool e0 w.Device.DebugPortVariable
          else e0) DataSize = (e2, true) →
      S.GetVariable e2 DataSize = (e3, s3, DataSize3, v) →
      (∀ m ∈ v, F.EfiIsUartDevicePath m = false) →
      (GetDebugPortVariable S F D w).Device = { w.Device with DebugPortVariable := none }) := by
  refine ⟨?_, ?_, ?_⟩
  · intro h
    unfold GetDebugPortVariable GetDebugPortVariable.fetch
    simp only [h, if_false, Bool.false_eq_true]
  · intro e0 e2 DataSize d0 hfirst halloc
    unfold GetDebugPortVariable GetDebugPortVariable.fetch
    simp only [hfirst, if_true, halloc, Bool.false_eq_true, if_false]
  · intro e0 e2 e3 DataSize DataSize3 d0 v s3 hfirst halloc hsecond hnone
    have hfind : v.find? F.EfiIsUartDevicePath = none := by
      rw [List.find?_eq_none]
      intro m hm
      simp [hnone m hm]
    unfold GetDebugPortVariable GetDebugPortVariable.fetch
    simp only [hfirst, if_true, halloc, hsecond]
    unfold GetDebugPortVariable.parse
    simp only [hfind]

/-- The record `InitializeDebugPortDriver` sets up holds the defaults. -/
theorem InitializeDebugPortDriver_Attributes (D : SerialAttributes) (d : DEBUGPORT_DEVICE)
    (h : (InitializeDebugPortDriver D true).1 = some d) : d.Attributes = D := by
  simp only [InitializeDebugPortDriver, if_true, Option.some.injEq] at h
  rw [← h]
  rfl

/-- C11: `GetDebugPortVariable` does not return to the defaults.  With the defaults 115200
baud, FIFO depth 16, timeout 50000, default parity, 8 data bits and 1 stop bit, and no
DebugPort variable stored (`GetVariable` returns `EFI_NOT_FOUND`): on a device record that
holds the configuration `DebugPortStart` writes after a failed `SetAttributes`, the baud
rate stays 0; and on the device record left by an earlier call that found a UART node for
9600 baud, 7 data bits and even parity in the variable, deleted since, the configuration
stays 9600 baud, 7 data bits and even parity.  The same holds when the variable stored has
no UART node. -/
theorem GetDebugPortVariable_stale_config :
    (exampleServices.GetVariable { Variable := none, Located := (EFI_NOT_FOUND, [], 0) } 0).2.1 =
        EFI_NOT_FOUND ∧
      exampleDevice.Attributes =
        { BaudRate := 115200, ReceiveFifoDepth := 16, Timeout := 50000,
          Parity := EFI_PARITY_TYPE.DefaultParity, DataBits := 8,
          StopBits := EFI_STOP_BITS_TYPE.OneStopBit } ∧
      (GetDebugPortVariable exampleServices exampleUartFormat exampleDevice.Attributes
        ({ Device := DebugPortStart.fallback exampleDevice, Serial := (),
           Boot := { Variable := none, Located := (EFI_NOT_FOUND, [], 0) }, log := [] } :
          DriverState Unit ExampleEnv)).Device.Attributes =
        { BaudRate := 0, ReceiveFifoDepth := 0, Timeout := 50000,
          Parity := EFI_PARITY_TYPE.DefaultParity, DataBits := 0,
          StopBits := EFI_STOP_BITS_TYPE.DefaultStopBits } ∧
      (GetDebugPortVariable exampleServices exampleUartFormat exampleDevice.Attributes
        ({ Device :=
            (GetDebugPortVariable exampleServices exampleUartFormat exampleDevice.Attributes
              ({ Device := exampleDevice, Serial := (),
                 Boot := { Variable := some [exampleAcpiNode, exampleUartNode],
                           Located := (EFI_NOT_FOUND, [], 0) },
                 log := [] } : DriverState Unit ExampleEnv)).Device,
           Serial := (),
           Boot := { Variable := none, Located := (EFI_NOT_FOUND, [], 0) }, log := [] } :
          DriverState Unit ExampleEnv)).Device.Attributes =
        { BaudRate := 9600, ReceiveFifoDepth := 16, Timeout := 50000,
          Parity := EFI_PARITY_TYPE.EvenParity, DataBits := 7,
          StopBits := EFI_STOP_BITS_TYPE.OneStopBit } ∧
      [exampleAcpiNode].find? exampleUartFormat.EfiIsUartDevicePath = none ∧
      (GetDebugPortVariable exampleServices exampleUartFormat exampleDevice.Attributes
        ({ Device := DebugPortStart.fallback exampleDevice, Serial := (),
           Boot := { Variable := some [exampleAcpiNode], Located := (EFI_NOT_FOUND, [], 0) },
           log := [] } : DriverState Unit ExampleEnv)).Device.Attributes ≠
        exampleDevice.Attributes := by
  decide

/-- The first half of C11 on a stored variable made of an ACPI node and a UART node for 9600
baud, 7 data bits, even parity and 1 stop bit, from the default configuration. -/
theorem GetDebugPortVariable_uart_node_example :
    (GetDebugPortVariable exampleServices exampleUartFormat exampleDevice.Attributes
        ({ Device := exampleDevice, Serial := (),
           Boot := { Variable := some [exampleAcpiNode, exampleUartNode],
                     Located := (EFI_NOT_FOUND, [], 0) },
           log := [] } : DriverState Unit ExampleEnv)).Device =
      { exampleDevice with
        DebugPortVariable := some [exampleAcpiNode, exampleUartNode]
        BaudRate := 9600, ReceiveFifoDepth := 16, Timeout := 50000,
        Parity := EFI_PARITY_TYPE.EvenParity, DataBits := 7,
        StopBits := EFI_STOP_BITS_TYPE.OneStopBit } :=
  congrArg DriverState.Device
    (GetDebugPortVariable_uart_node exampleServices exampleUartFormat exampleDevice.Attributes
      ({ Device := exampleDevice, Serial := (),
         Boot := { Variable := some [exampleAcpiNode, exampleUartNode],
                   Located := (EFI_NOT_FOUND, [], 0) },
         log := [] } : DriverState Unit ExampleEnv) _ _ _ _ _ _ _
      [exampleAcpiNode] [] exampleUartNode rfl rfl rfl (by decide) (by decide))

/-! ## DebugPortSupported -/

/-- C13, as stated, fails.  On the device record that `DebugPortStart` leaves, with services
that reject a `NULL` handle as the UEFI specification describes: `DebugPortStop` with one
child returns `EFI_SUCCESS` and clears the child handle, and a second call in succession
hands that `NULL` handle to `CloseProtocol` and returns `EFI_INVALID_PARAMETER`, an
error. -/
theorem DebugPortStop_twice_counterexample :
    (∃ r, DebugPortStart (constSerialIo EFI_SUCCESS true 0) exampleServices.toEFI_BOOT_SERVICES
        false 0 1 7
        { Device := exampleDevice, Serial := (),
          Boot := { Variable := none, Located := (EFI_NOT_FOUND, [], 0) }, log := [] } = some r ∧
      r.2 = EFI_SUCCESS ∧ r.1.Device = exampleBoundDevice) ∧
    (DebugPortStop exampleServices 1 7 1
      ({ Device := exampleBoundDevice, Serial := (),
         Boot := { Variable := none, Located := (EFI_NOT_FOUND, [], 0) }, log := [] } :
        DriverState Unit ExampleEnv)).2 = EFI_SUCCESS ∧
    (DebugPortStop exampleServices 1 7 1
      ({ Device := exampleBoundDevice, Serial := (),
         Boot := { Variable := none, Located := (EFI_NOT_FOUND, [], 0) }, log := [] } :
        DriverState Unit ExampleEnv)).1.Device =
      { exampleBoundDevice with DebugPortDeviceHandle := none } ∧
    (DebugPortStop exampleServices 1 7 1
      (DebugPortStop exampleServices 1 7 1
        ({ Device := exampleBoundDevice, Serial := (),
           Boot := { Variable := none, Located := (EFI_NOT_FOUND, [], 0) }, log := [] } :
          DriverState Unit ExampleEnv)).1).2 = EFI_INVALID_PARAMETER ∧
    EFI_ERROR EFI_INVALID_PARAMETER = true ∧
    EFI_INVALID_PARAMETER ≠ EFI_SUCCESS :=
  ⟨⟨_, rfl, rfl, by decide⟩, rfl, by decide, rfl, by decide, by decide⟩

/-- C13, amended, for calls with `NumberOfChildren ≠ 0`.  `DebugPortStop` returns the error
of `CloseProtocol`, with the device record unchanged, when closing the child's open of the
transport fails; when it returns without an error, the device record is unchanged but for the
child handle, which is `NULL`.  So a second call in succession passes a `NULL` child handle
to `CloseProtocol` and, when `CloseProtocol` rejects it, returns an error and leaves the
device record as the first call left it. -/
theorem DebugPortStop_twice {σ ε : Type} (S : EFI_DRIVER_SERVICES ε)
    (DriverBindingHandle ControllerHandle : EFI_HANDLE) (w : DriverState σ ε) (n : Nat)
    (hn : n ≠ 0) :
    (EFI_ERROR (S.CloseProtocol w.Boot w.Device.SerialIoDeviceHandle
        ProtocolGuid.SerialIoProtocol DriverBindingHandle w.Device.DebugPortDeviceHandle).2 =
        true →
      (DebugPortStop S DriverBindingHandle ControllerHandle n w).2 =
          (S.CloseProtocol w.Boot w.Device.SerialIoDeviceHandle
            ProtocolGuid.SerialIoProtocol DriverBindingHandle
            w.Device.DebugPortDeviceHandle).2 ∧
        (DebugPortStop S DriverBindingHandle ControllerHandle n w).1.Device = w.Device) ∧
    (EFI_ERROR (DebugPortStop S DriverBindingHandle ControllerHandle n w).2 = false →
      (DebugPortStop S DriverBindingHandle ControllerHandle n w).1.Device =
        { w.Device with DebugPortDeviceHandle := none }) ∧
    (EFI_ERROR (DebugPortStop S DriverBindingHandle ControllerHandle n w).2 = false →
      EFI_ERROR (S.CloseProtocol (DebugPortStop S DriverBindingHandle ControllerHandle n w).1.Boot
        w.Device.SerialIoDeviceHandle ProtocolGuid.SerialIoProtocol DriverBindingHandle
        none).2 = true →
      EFI_ERROR (DebugPortStop S DriverBindingHandle ControllerHandle n
        (DebugPortStop S DriverBindingHandle ControllerHandle n w).1).2 = true ∧
      (DebugPortStop S DriverBindingHandle ControllerHandle n
          (DebugPortStop S DriverBindingHandle ControllerHandle n w).1).2 =
        (S.CloseProtocol (DebugPortStop S DriverBindingHandle ControllerHandle n w).1.Boot
          w.Device.SerialIoDeviceHandle ProtocolGuid.SerialIoProtocol DriverBindingHandle
          none).2 ∧
      (DebugPortStop S DriverBindingHandle ControllerHandle n
        (DebugPortStop S DriverBindingHandle ControllerHandle n w).1).1.Device =
        (DebugPortStop S DriverBindingHandle ControllerHandle n w).1.Device) := by
  have hfail : ∀ (u : DriverState σ ε),
      EFI_ERROR (S.CloseProtocol u.Boot u.Device.SerialIoDeviceHandle
        ProtocolGuid.SerialIoProtocol DriverBindingHandle u.Device.DebugPortDeviceHandle).2 = true →
      (DebugPortStop S DriverBindingHandle ControllerHandle n u).2 =
          (S.CloseProtocol u.Boot u.Device.SerialIoDeviceHandle
            ProtocolGuid.SerialIoProtocol DriverBindingHandle u.Device.DebugPortDeviceHandle).2 ∧
        (DebugPortStop S DriverBindingHandle ControllerHandle n u).1.Device = u.Device := by
    intro u herr
    unfold DebugPortStop
    rw [if_neg hn]
    dsimp only
    rw [if_pos herr]
    exact ⟨rfl, rfl⟩
  have hok : EFI_ERROR (DebugPortStop S DriverBindingHandle ControllerHandle n w).2 = false →
      (DebugPortStop S DriverBindingHandle ControllerHandle n w).1.Device =
        { w.Device with DebugPortDeviceHandle := none } := by
    unfold DebugPortStop
    simp only [hn, if_false]
    split
    · next h1 => intro h2; rw [h1] at h2; cases h2
    · split
      · next h1 => intro h2; rw [h1] at h2; cases h2
      · intro _; rfl
  refine ⟨hfail w, hok, ?_⟩
  intro h1 h2
  have hdev := hok h1
  have h3 := hfail (DebugPortStop S DriverBindingHandle ControllerHandle n w).1
    (by rw [hdev]; exact h2)
  rw [hdev] at h3
  refine ⟨?_, h3.1, ?_⟩
  · rw [h3.1]
    exact h2
  · rw [hdev]
    exact h3.2

/-- C13 on the device record that `DebugPortStart` leaves: after a call with one child that
succeeded, a second one fails on the `NULL` child handle and leaves the device record as it
is. -/
theorem DebugPortStop_twice_witness :
    EFI_ERROR (DebugPortStop exampleServices 1 7 1
        (DebugPortStop exampleServices 1 7 1
          ({ Device := exampleBoundDevice, Serial := (),
             Boot := { Variable := none, Located := (EFI_NOT_FOUND, [], 0) }, log := [] } :
            DriverState Unit ExampleEnv)).1).2 = true ∧
      (DebugPortStop exampleServices 1 7 1
        (DebugPortStop exampleServices 1 7 1
          ({ Device := exampleBoundDevice, Serial := (),
             Boot := { Variable := none, Located := (EFI_NOT_FOUND, [], 0) }, log := [] } :
            DriverState Unit ExampleEnv)).1).1.Device =
        (DebugPortStop exampleServices 1 7 1
          ({ Device := exampleBoundDevice, Serial := (),
             Boot := { Variable := none, Located := (EFI_NOT_FOUND, [], 0) }, log := [] } :
            DriverState Unit ExampleEnv)).1.Device :=
  have h := (DebugPortStop_twice exampleServices 1 7
      ({ Device := exampleBoundDevice, Serial := (),
         Boot := { Variable := none, Located := (EFI_NOT_FOUND, [], 0) }, log := [] } :
        DriverState Unit ExampleEnv) 1 (by decide)).2.2 (by decide) (by decide)
  ⟨h.1, h.2.2⟩

/-- With `NumberOfChildren = 0`, `DebugPortStop` hands `DebugPortDevicePath` to `FreePool` and
leaves the pointer in the device record, so a second call hands the same pointer to
`FreePool` again: on the device record that `DebugPortStart` leaves, the pointers freed by
two calls in succession are the same buffer, twice.  On a device record that was never
started, the pointer handed to `FreePool` is `NULL`. -/
theorem DebugPortStop_frees_again :
    (DebugPortStop exampleServices 1 7 0
      ({ Device := exampleDevice, Serial := (),
         Boot := { Variable := none, Located := (EFI_NOT_FOUND, [], 0) }, log := [] } :
        DriverState Unit ExampleEnv)).1.Boot.Freed = [none] ∧
    (DebugPortStop exampleServices 1 7 0
      ({ Device := exampleBoundDevice, Serial := (),
         Boot := { Variable := none, Located := (EFI_NOT_FOUND, [], 0) }, log := [] } :
        DriverState Unit ExampleEnv)).1.Device.DebugPortDevicePath = some [DebugPortDP] ∧
    (DebugPortStop exampleServices 1 7 0
      (DebugPortStop exampleServices 1 7 0
        ({ Device := exampleBoundDevice, Serial := (),
           Boot := { Variable := none, Located := (EFI_NOT_FOUND, [], 0) }, log := [] } :
          DriverState Unit ExampleEnv)).1).1.Boot.Freed =
      [some [DebugPortDP], some [DebugPortDP]] := by
  decide

end DebugPort
